import Mathlib

/-!
Verification of the ruby-mcp-client example server (`examples/echo_server.py`)
and of the tool-invocation server core described by its specification:
tool registry, argument validator and dispatcher.  Python strings are
modelled as lists of unicode scalar values (`List Char`).
-/

namespace McpCore

/-- Python `str` values are sequences of unicode code points. -/
abbrev PyStr := List Char

/-- Characters on which Python `str.split()` with no separator splits: the
code points for which `str.isspace` holds. -/
def pyIsSpace (c : Char) : Bool :=
  decide (c.toNat ∈ [9, 10, 11, 12, 13, 28, 29, 30, 31, 32, 133, 160, 5760,
    8192, 8193, 8194, 8195, 8196, 8197, 8198, 8199, 8200, 8201, 8202,
    8232, 8233, 8239, 8287, 12288])

/-- Helper for `pySplit`: walks the string keeping the current word
reversed in an accumulator; runs of whitespace close the current word. -/
def splitAux : List Char → List Char → List (List Char)
  | [], cur => if cur.isEmpty then [] else [cur.reverse]
  | c :: cs, cur =>
    if pyIsSpace c then
      if cur.isEmpty then splitAux cs [] else cur.reverse :: splitAux cs []
    else splitAux cs (c :: cur)

/-- Python `text.split()` with no separator: runs of whitespace separate
words; leading and trailing whitespace produce no empty words. -/
def pySplit (s : PyStr) : List PyStr := splitAux s []

/-- Python `text.replace(" ", "")`: with a single-character pattern and an
empty replacement this deletes every space (U+0020) character. -/
def pyReplaceSpace (s : PyStr) : PyStr := s.filter (fun c => c != ' ')

/-- Binary search tree over code points, used to state and check facts
about the uppercase table efficiently. -/
inductive NatUpperMap where
  | leaf : NatUpperMap
  | node : NatUpperMap → Nat → List Nat → NatUpperMap → NatUpperMap

/-- Search for a code point among the tree's keys. -/
def NatUpperMap.find : NatUpperMap → Nat → Option (List Nat)
  | .leaf, _ => none
  | .node l k v r, n =>
    if n < k then l.find n else if k < n then r.find n else some v

/-- In-order contents of the tree. -/
def NatUpperMap.toList : NatUpperMap → List (Nat × List Nat)
  | .leaf => []
  | .node l k v r => l.toList ++ (k, v) :: r.toList

/-- A code point is a unicode scalar value (not a surrogate). -/
def validCp (d : Nat) : Bool :=
  decide (d < 55296) || (decide (57344 ≤ d) && decide (d < 1114112))

/-- Checks that every code point produced by a mapping entry of a tree is
a valid scalar value and is itself absent from the keys of `full`. -/
def NatUpperMap.checkAgainst (full : NatUpperMap) : NatUpperMap → Bool
  | .leaf => true
  | .node l _ v r =>
    v.all (fun d => validCp d && (full.find d).isNone)
      && full.checkAgainst l && full.checkAgainst r

/-- Strict sortedness of a list of code points, as a boolean scan. -/
def sortedKeys : List Nat → Bool
  | [] => true
  | [_] => true
  | a :: b :: t => decide (a < b) && sortedKeys (b :: t)

set_option maxHeartbeats 2000000 in
/-- Modelled from the source's `text.upper()`: the complete per-code-point
case mapping table of CPython's `str.upper` (CPython 3.11, Unicode 14),
listing in increasing order every code point the function changes,
together with its full uppercase image (including the multi-character
special casings such as 223, ß, mapping to "SS"). -/
def upperTable : List (Nat × List Nat) := [
  (97, [65]), (98, [66]), (99, [67]), (100, [68]), (101, [69]), (102, [70]),
  (103, [71]), (104, [72]), (105, [73]), (106, [74]), (107, [75]),
  (108, [76]), (109, [77]), (110, [78]), (111, [79]), (112, [80]),
  (113, [81]), (114, [82]), (115, [83]), (116, [84]), (117, [85]),
  (118, [86]), (119, [87]), (120, [88]), (121, [89]), (122, [90]),
  (181, [924]), (223, [83, 83]), (224, [192]), (225, [193]), (226, [194]),
  (227, [195]), (228, [196]), (229, [197]), (230, [198]), (231, [199]),
  (232, [200]), (233, [201]), (234, [202]), (235, [203]), (236, [204]),
  (237, [205]), (238, [206]), (239, [207]), (240, [208]), (241, [209]),
  (242, [210]), (243, [211]), (244, [212]), (245, [213]), (246, [214]),
  (248, [216]), (249, [217]), (250, [218]), (251, [219]), (252, [220]),
  (253, [221]), (254, [222]), (255, [376]), (257, [256]), (259, [258]),
  (261, [260]), (263, [262]), (265, [264]), (267, [266]), (269, [268]),
  (271, [270]), (273, [272]), (275, [274]), (277, [276]), (279, [278]),
  (281, [280]), (283, [282]), (285, [284]), (287, [286]), (289, [288]),
  (291, [290]), (293, [292]), (295, [294]), (297, [296]), (299, [298]),
  (301, [300]), (303, [302]), (305, [73]), (307, [306]), (309, [308]),
  (311, [310]), (314, [313]), (316, [315]), (318, [317]), (320, [319]),
  (322, [321]), (324, [323]), (326, [325]), (328, [327]), (329, [700, 78]),
  (331, [330]), (333, [332]), (335, [334]), (337, [336]), (339, [338]),
  (341, [340]), (343, [342]), (345, [344]), (347, [346]), (349, [348]),
  (351, [350]), (353, [352]), (355, [354]), (357, [356]), (359, [358]),
  (361, [360]), (363, [362]), (365, [364]), (367, [366]), (369, [368]),
  (371, [370]), (373, [372]), (375, [374]), (378, [377]), (380, [379]),
  (382, [381]), (383, [83]), (384, [579]), (387, [386]), (389, [388]),
  (392, [391]), (396, [395]), (402, [401]), (405, [502]), (409, [408]),
  (410, [573]), (414, [544]), (417, [416]), (419, [418]), (421, [420]),
  (424, [423]), (429, [428]), (432, [431]), (436, [435]), (438, [437]),
  (441, [440]), (445, [444]), (447, [503]), (453, [452]), (454, [452]),
  (456, [455]), (457, [455]), (459, [458]), (460, [458]), (462, [461]),
  (464, [463]), (466, [465]), (468, [467]), (470, [469]), (472, [471]),
  (474, [473]), (476, [475]), (477, [398]), (479, [478]), (481, [480]),
  (483, [482]), (485, [484]), (487, [486]), (489, [488]), (491, [490]),
  (493, [492]), (495, [494]), (496, [74, 780]), (498, [497]), (499, [497]),
  (501, [500]), (505, [504]), (507, [506]), (509, [508]), (511, [510]),
  (513, [512]), (515, [514]), (517, [516]), (519, [518]), (521, [520]),
  (523, [522]), (525, [524]), (527, [526]), (529, [528]), (531, [530]),
  (533, [532]), (535, [534]), (537, [536]), (539, [538]), (541, [540]),
  (543, [542]), (547, [546]), (549, [548]), (551, [550]), (553, [552]),
  (555, [554]), (557, [556]), (559, [558]), (561, [560]), (563, [562]),
  (572, [571]), (575, [11390]), (576, [11391]), (578, [577]), (583, [582]),
  (585, [584]), (587, [586]), (589, [588]), (591, [590]), (592, [11375]),
  (593, [11373]), (594, [11376]), (595, [385]), (596, [390]), (598, [393]),
  (599, [394]), (601, [399]), (603, [400]), (604, [42923]), (608, [403]),
  (609, [42924]), (611, [404]), (613, [42893]), (614, [42922]), (616, [407]),
  (617, [406]), (618, [42926]), (619, [11362]), (620, [42925]), (623, [412]),
  (625, [11374]), (626, [413]), (629, [415]), (637, [11364]), (640, [422]),
  (642, [42949]), (643, [425]), (647, [42929]), (648, [430]), (649, [580]),
  (650, [433]), (651, [434]), (652, [581]), (658, [439]), (669, [42930]),
  (670, [42928]), (837, [921]), (881, [880]), (883, [882]), (887, [886]),
  (891, [1021]), (892, [1022]), (893, [1023]), (912, [921, 776, 769]),
  (940, [902]), (941, [904]), (942, [905]), (943, [906]),
  (944, [933, 776, 769]), (945, [913]), (946, [914]), (947, [915]),
  (948, [916]), (949, [917]), (950, [918]), (951, [919]), (952, [920]),
  (953, [921]), (954, [922]), (955, [923]), (956, [924]), (957, [925]),
  (958, [926]), (959, [927]), (960, [928]), (961, [929]), (962, [931]),
  (963, [931]), (964, [932]), (965, [933]), (966, [934]), (967, [935]),
  (968, [936]), (969, [937]), (970, [938]), (971, [939]), (972, [908]),
  (973, [910]), (974, [911]), (976, [914]), (977, [920]), (981, [934]),
  (982, [928]), (983, [975]), (985, [984]), (987, [986]), (989, [988]),
  (991, [990]), (993, [992]), (995, [994]), (997, [996]), (999, [998]),
  (1001, [1000]), (1003, [1002]), (1005, [1004]), (1007, [1006]),
  (1008, [922]), (1009, [929]), (1010, [1017]), (1011, [895]), (1013, [917]),
  (1016, [1015]), (1019, [1018]), (1072, [1040]), (1073, [1041]),
  (1074, [1042]), (1075, [1043]), (1076, [1044]), (1077, [1045]),
  (1078, [1046]), (1079, [1047]), (1080, [1048]), (1081, [1049]),
  (1082, [1050]), (1083, [1051]), (1084, [1052]), (1085, [1053]),
  (1086, [1054]), (1087, [1055]), (1088, [1056]), (1089, [1057]),
  (1090, [1058]), (1091, [1059]), (1092, [1060]), (1093, [1061]),
  (1094, [1062]), (1095, [1063]), (1096, [1064]), (1097, [1065]),
  (1098, [1066]), (1099, [1067]), (1100, [1068]), (1101, [1069]),
  (1102, [1070]), (1103, [1071]), (1104, [1024]), (1105, [1025]),
  (1106, [1026]), (1107, [1027]), (1108, [1028]), (1109, [1029]),
  (1110, [1030]), (1111, [1031]), (1112, [1032]), (1113, [1033]),
  (1114, [1034]), (1115, [1035]), (1116, [1036]), (1117, [1037]),
  (1118, [1038]), (1119, [1039]), (1121, [1120]), (1123, [1122]),
  (1125, [1124]), (1127, [1126]), (1129, [1128]), (1131, [1130]),
  (1133, [1132]), (1135, [1134]), (1137, [1136]), (1139, [1138]),
  (1141, [1140]), (1143, [1142]), (1145, [1144]), (1147, [1146]),
  (1149, [1148]), (1151, [1150]), (1153, [1152]), (1163, [1162]),
  (1165, [1164]), (1167, [1166]), (1169, [1168]), (1171, [1170]),
  (1173, [1172]), (1175, [1174]), (1177, [1176]), (1179, [1178]),
  (1181, [1180]), (1183, [1182]), (1185, [1184]), (1187, [1186]),
  (1189, [1188]), (1191, [1190]), (1193, [1192]), (1195, [1194]),
  (1197, [1196]), (1199, [1198]), (1201, [1200]), (1203, [1202]),
  (1205, [1204]), (1207, [1206]), (1209, [1208]), (1211, [1210]),
  (1213, [1212]), (1215, [1214]), (1218, [1217]), (1220, [1219]),
  (1222, [1221]), (1224, [1223]), (1226, [1225]), (1228, [1227]),
  (1230, [1229]), (1231, [1216]), (1233, [1232]), (1235, [1234]),
  (1237, [1236]), (1239, [1238]), (1241, [1240]), (1243, [1242]),
  (1245, [1244]), (1247, [1246]), (1249, [1248]), (1251, [1250]),
  (1253, [1252]), (1255, [1254]), (1257, [1256]), (1259, [1258]),
  (1261, [1260]), (1263, [1262]), (1265, [1264]), (1267, [1266]),
  (1269, [1268]), (1271, [1270]), (1273, [1272]), (1275, [1274]),
  (1277, [1276]), (1279, [1278]), (1281, [1280]), (1283, [1282]),
  (1285, [1284]), (1287, [1286]), (1289, [1288]), (1291, [1290]),
  (1293, [1292]), (1295, [1294]), (1297, [1296]), (1299, [1298]),
  (1301, [1300]), (1303, [1302]), (1305, [1304]), (1307, [1306]),
  (1309, [1308]), (1311, [1310]), (1313, [1312]), (1315, [1314]),
  (1317, [1316]), (1319, [1318]), (1321, [1320]), (1323, [1322]),
  (1325, [1324]), (1327, [1326]), (1377, [1329]), (1378, [1330]),
  (1379, [1331]), (1380, [1332]), (1381, [1333]), (1382, [1334]),
  (1383, [1335]), (1384, [1336]), (1385, [1337]), (1386, [1338]),
  (1387, [1339]), (1388, [1340]), (1389, [1341]), (1390, [1342]),
  (1391, [1343]), (1392, [1344]), (1393, [1345]), (1394, [1346]),
  (1395, [1347]), (1396, [1348]), (1397, [1349]), (1398, [1350]),
  (1399, [1351]), (1400, [1352]), (1401, [1353]), (1402, [1354]),
  (1403, [1355]), (1404, [1356]), (1405, [1357]), (1406, [1358]),
  (1407, [1359]), (1408, [1360]), (1409, [1361]), (1410, [1362]),
  (1411, [1363]), (1412, [1364]), (1413, [1365]), (1414, [1366]),
  (1415, [1333, 1362]), (4304, [7312]), (4305, [7313]), (4306, [7314]),
  (4307, [7315]), (4308, [7316]), (4309, [7317]), (4310, [7318]),
  (4311, [7319]), (4312, [7320]), (4313, [7321]), (4314, [7322]),
  (4315, [7323]), (4316, [7324]), (4317, [7325]), (4318, [7326]),
  (4319, [7327]), (4320, [7328]), (4321, [7329]), (4322, [7330]),
  (4323, [7331]), (4324, [7332]), (4325, [7333]), (4326, [7334]),
  (4327, [7335]), (4328, [7336]), (4329, [7337]), (4330, [7338]),
  (4331, [7339]), (4332, [7340]), (4333, [7341]), (4334, [7342]),
  (4335, [7343]), (4336, [7344]), (4337, [7345]), (4338, [7346]),
  (4339, [7347]), (4340, [7348]), (4341, [7349]), (4342, [7350]),
  (4343, [7351]), (4344, [7352]), (4345, [7353]), (4346, [7354]),
  (4349, [7357]), (4350, [7358]), (4351, [7359]), (5112, [5104]),
  (5113, [5105]), (5114, [5106]), (5115, [5107]), (5116, [5108]),
  (5117, [5109]), (7296, [1042]), (7297, [1044]), (7298, [1054]),
  (7299, [1057]), (7300, [1058]), (7301, [1058]), (7302, [1066]),
  (7303, [1122]), (7304, [42570]), (7545, [42877]), (7549, [11363]),
  (7566, [42950]), (7681, [7680]), (7683, [7682]), (7685, [7684]),
  (7687, [7686]), (7689, [7688]), (7691, [7690]), (7693, [7692]),
  (7695, [7694]), (7697, [7696]), (7699, [7698]), (7701, [7700]),
  (7703, [7702]), (7705, [7704]), (7707, [7706]), (7709, [7708]),
  (7711, [7710]), (7713, [7712]), (7715, [7714]), (7717, [7716]),
  (7719, [7718]), (7721, [7720]), (7723, [7722]), (7725, [7724]),
  (7727, [7726]), (7729, [7728]), (7731, [7730]), (7733, [7732]),
  (7735, [7734]), (7737, [7736]), (7739, [7738]), (7741, [7740]),
  (7743, [7742]), (7745, [7744]), (7747, [7746]), (7749, [7748]),
  (7751, [7750]), (7753, [7752]), (7755, [7754]), (7757, [7756]),
  (7759, [7758]), (7761, [7760]), (7763, [7762]), (7765, [7764]),
  (7767, [7766]), (7769, [7768]), (7771, [7770]), (7773, [7772]),
  (7775, [7774]), (7777, [7776]), (7779, [7778]), (7781, [7780]),
  (7783, [7782]), (7785, [7784]), (7787, [7786]), (7789, [7788]),
  (7791, [7790]), (7793, [7792]), (7795, [7794]), (7797, [7796]),
  (7799, [7798]), (7801, [7800]), (7803, [7802]), (7805, [7804]),
  (7807, [7806]), (7809, [7808]), (7811, [7810]), (7813, [7812]),
  (7815, [7814]), (7817, [7816]), (7819, [7818]), (7821, [7820]),
  (7823, [7822]), (7825, [7824]), (7827, [7826]), (7829, [7828]),
  (7830, [72, 817]), (7831, [84, 776]), (7832, [87, 778]), (7833, [89, 778]),
  (7834, [65, 702]), (7835, [7776]), (7841, [7840]), (7843, [7842]),
  (7845, [7844]), (7847, [7846]), (7849, [7848]), (7851, [7850]),
  (7853, [7852]), (7855, [7854]), (7857, [7856]), (7859, [7858]),
  (7861, [7860]), (7863, [7862]), (7865, [7864]), (7867, [7866]),
  (7869, [7868]), (7871, [7870]), (7873, [7872]), (7875, [7874]),
  (7877, [7876]), (7879, [7878]), (7881, [7880]), (7883, [7882]),
  (7885, [7884]), (7887, [7886]), (7889, [7888]), (7891, [7890]),
  (7893, [7892]), (7895, [7894]), (7897, [7896]), (7899, [7898]),
  (7901, [7900]), (7903, [7902]), (7905, [7904]), (7907, [7906]),
  (7909, [7908]), (7911, [7910]), (7913, [7912]), (7915, [7914]),
  (7917, [7916]), (7919, [7918]), (7921, [7920]), (7923, [7922]),
  (7925, [7924]), (7927, [7926]), (7929, [7928]), (7931, [7930]),
  (7933, [7932]), (7935, [7934]), (7936, [7944]), (7937, [7945]),
  (7938, [7946]), (7939, [7947]), (7940, [7948]), (7941, [7949]),
  (7942, [7950]), (7943, [7951]), (7952, [7960]), (7953, [7961]),
  (7954, [7962]), (7955, [7963]), (7956, [7964]), (7957, [7965]),
  (7968, [7976]), (7969, [7977]), (7970, [7978]), (7971, [7979]),
  (7972, [7980]), (7973, [7981]), (7974, [7982]), (7975, [7983]),
  (7984, [7992]), (7985, [7993]), (7986, [7994]), (7987, [7995]),
  (7988, [7996]), (7989, [7997]), (7990, [7998]), (7991, [7999]),
  (8000, [8008]), (8001, [8009]), (8002, [8010]), (8003, [8011]),
  (8004, [8012]), (8005, [8013]), (8016, [933, 787]), (8017, [8025]),
  (8018, [933, 787, 768]), (8019, [8027]), (8020, [933, 787, 769]),
  (8021, [8029]), (8022, [933, 787, 834]), (8023, [8031]), (8032, [8040]),
  (8033, [8041]), (8034, [8042]), (8035, [8043]), (8036, [8044]),
  (8037, [8045]), (8038, [8046]), (8039, [8047]), (8048, [8122]),
  (8049, [8123]), (8050, [8136]), (8051, [8137]), (8052, [8138]),
  (8053, [8139]), (8054, [8154]), (8055, [8155]), (8056, [8184]),
  (8057, [8185]), (8058, [8170]), (8059, [8171]), (8060, [8186]),
  (8061, [8187]), (8064, [7944, 921]), (8065, [7945, 921]),
  (8066, [7946, 921]), (8067, [7947, 921]), (8068, [7948, 921]),
  (8069, [7949, 921]), (8070, [7950, 921]), (8071, [7951, 921]),
  (8072, [7944, 921]), (8073, [7945, 921]), (8074, [7946, 921]),
  (8075, [7947, 921]), (8076, [7948, 921]), (8077, [7949, 921]),
  (8078, [7950, 921]), (8079, [7951, 921]), (8080, [7976, 921]),
  (8081, [7977, 921]), (8082, [7978, 921]), (8083, [7979, 921]),
  (8084, [7980, 921]), (8085, [7981, 921]), (8086, [7982, 921]),
  (8087, [7983, 921]), (8088, [7976, 921]), (8089, [7977, 921]),
  (8090, [7978, 921]), (8091, [7979, 921]), (8092, [7980, 921]),
  (8093, [7981, 921]), (8094, [7982, 921]), (8095, [7983, 921]),
  (8096, [8040, 921]), (8097, [8041, 921]), (8098, [8042, 921]),
  (8099, [8043, 921]), (8100, [8044, 921]), (8101, [8045, 921]),
  (8102, [8046, 921]), (8103, [8047, 921]), (8104, [8040, 921]),
  (8105, [8041, 921]), (8106, [8042, 921]), (8107, [8043, 921]),
  (8108, [8044, 921]), (8109, [8045, 921]), (8110, [8046, 921]),
  (8111, [8047, 921]), (8112, [8120]), (8113, [8121]), (8114, [8122, 921]),
  (8115, [913, 921]), (8116, [902, 921]), (8118, [913, 834]),
  (8119, [913, 834, 921]), (8124, [913, 921]), (8126, [921]),
  (8130, [8138, 921]), (8131, [919, 921]), (8132, [905, 921]),
  (8134, [919, 834]), (8135, [919, 834, 921]), (8140, [919, 921]),
  (8144, [8152]), (8145, [8153]), (8146, [921, 776, 768]),
  (8147, [921, 776, 769]), (8150, [921, 834]), (8151, [921, 776, 834]),
  (8160, [8168]), (8161, [8169]), (8162, [933, 776, 768]),
  (8163, [933, 776, 769]), (8164, [929, 787]), (8165, [8172]),
  (8166, [933, 834]), (8167, [933, 776, 834]), (8178, [8186, 921]),
  (8179, [937, 921]), (8180, [911, 921]), (8182, [937, 834]),
  (8183, [937, 834, 921]), (8188, [937, 921]), (8526, [8498]),
  (8560, [8544]), (8561, [8545]), (8562, [8546]), (8563, [8547]),
  (8564, [8548]), (8565, [8549]), (8566, [8550]), (8567, [8551]),
  (8568, [8552]), (8569, [8553]), (8570, [8554]), (8571, [8555]),
  (8572, [8556]), (8573, [8557]), (8574, [8558]), (8575, [8559]),
  (8580, [8579]), (9424, [9398]), (9425, [9399]), (9426, [9400]),
  (9427, [9401]), (9428, [9402]), (9429, [9403]), (9430, [9404]),
  (9431, [9405]), (9432, [9406]), (9433, [9407]), (9434, [9408]),
  (9435, [9409]), (9436, [9410]), (9437, [9411]), (9438, [9412]),
  (9439, [9413]), (9440, [9414]), (9441, [9415]), (9442, [9416]),
  (9443, [9417]), (9444, [9418]), (9445, [9419]), (9446, [9420]),
  (9447, [9421]), (9448, [9422]), (9449, [9423]), (11312, [11264]),
  (11313, [11265]), (11314, [11266]), (11315, [11267]), (11316, [11268]),
  (11317, [11269]), (11318, [11270]), (11319, [11271]), (11320, [11272]),
  (11321, [11273]), (11322, [11274]), (11323, [11275]), (11324, [11276]),
  (11325, [11277]), (11326, [11278]), (11327, [11279]), (11328, [11280]),
  (11329, [11281]), (11330, [11282]), (11331, [11283]), (11332, [11284]),
  (11333, [11285]), (11334, [11286]), (11335, [11287]), (11336, [11288]),
  (11337, [11289]), (11338, [11290]), (11339, [11291]), (11340, [11292]),
  (11341, [11293]), (11342, [11294]), (11343, [11295]), (11344, [11296]),
  (11345, [11297]), (11346, [11298]), (11347, [11299]), (11348, [11300]),
  (11349, [11301]), (11350, [11302]), (11351, [11303]), (11352, [11304]),
  (11353, [11305]), (11354, [11306]), (11355, [11307]), (11356, [11308]),
  (11357, [11309]), (11358, [11310]), (11359, [11311]), (11361, [11360]),
  (11365, [570]), (11366, [574]), (11368, [11367]), (11370, [11369]),
  (11372, [11371]), (11379, [11378]), (11382, [11381]), (11393, [11392]),
  (11395, [11394]), (11397, [11396]), (11399, [11398]), (11401, [11400]),
  (11403, [11402]), (11405, [11404]), (11407, [11406]), (11409, [11408]),
  (11411, [11410]), (11413, [11412]), (11415, [11414]), (11417, [11416]),
  (11419, [11418]), (11421, [11420]), (11423, [11422]), (11425, [11424]),
  (11427, [11426]), (11429, [11428]), (11431, [11430]), (11433, [11432]),
  (11435, [11434]), (11437, [11436]), (11439, [11438]), (11441, [11440]),
  (11443, [11442]), (11445, [11444]), (11447, [11446]), (11449, [11448]),
  (11451, [11450]), (11453, [11452]), (11455, [11454]), (11457, [11456]),
  (11459, [11458]), (11461, [11460]), (11463, [11462]), (11465, [11464]),
  (11467, [11466]), (11469, [11468]), (11471, [11470]), (11473, [11472]),
  (11475, [11474]), (11477, [11476]), (11479, [11478]), (11481, [11480]),
  (11483, [11482]), (11485, [11484]), (11487, [11486]), (11489, [11488]),
  (11491, [11490]), (11500, [11499]), (11502, [11501]), (11507, [11506]),
  (11520, [4256]), (11521, [4257]), (11522, [4258]), (11523, [4259]),
  (11524, [4260]), (11525, [4261]), (11526, [4262]), (11527, [4263]),
  (11528, [4264]), (11529, [4265]), (11530, [4266]), (11531, [4267]),
  (11532, [4268]), (11533, [4269]), (11534, [4270]), (11535, [4271]),
  (11536, [4272]), (11537, [4273]), (11538, [4274]), (11539, [4275]),
  (11540, [4276]), (11541, [4277]), (11542, [4278]), (11543, [4279]),
  (11544, [4280]), (11545, [4281]), (11546, [4282]), (11547, [4283]),
  (11548, [4284]), (11549, [4285]), (11550, [4286]), (11551, [4287]),
  (11552, [4288]), (11553, [4289]), (11554, [4290]), (11555, [4291]),
  (11556, [4292]), (11557, [4293]), (11559, [4295]), (11565, [4301]),
  (42561, [42560]), (42563, [42562]), (42565, [42564]), (42567, [42566]),
  (42569, [42568]), (42571, [42570]), (42573, [42572]), (42575, [42574]),
  (42577, [42576]), (42579, [42578]), (42581, [42580]), (42583, [42582]),
  (42585, [42584]), (42587, [42586]), (42589, [42588]), (42591, [42590]),
  (42593, [42592]), (42595, [42594]), (42597, [42596]), (42599, [42598]),
  (42601, [42600]), (42603, [42602]), (42605, [42604]), (42625, [42624]),
  (42627, [42626]), (42629, [42628]), (42631, [42630]), (42633, [42632]),
  (42635, [42634]), (42637, [42636]), (42639, [42638]), (42641, [42640]),
  (42643, [42642]), (42645, [42644]), (42647, [42646]), (42649, [42648]),
  (42651, [42650]), (42787, [42786]), (42789, [42788]), (42791, [42790]),
  (42793, [42792]), (42795, [42794]), (42797, [42796]), (42799, [42798]),
  (42803, [42802]), (42805, [42804]), (42807, [42806]), (42809, [42808]),
  (42811, [42810]), (42813, [42812]), (42815, [42814]), (42817, [42816]),
  (42819, [42818]), (42821, [42820]), (42823, [42822]), (42825, [42824]),
  (42827, [42826]), (42829, [42828]), (42831, [42830]), (42833, [42832]),
  (42835, [42834]), (42837, [42836]), (42839, [42838]), (42841, [42840]),
  (42843, [42842]), (42845, [42844]), (42847, [42846]), (42849, [42848]),
  (42851, [42850]), (42853, [42852]), (42855, [42854]), (42857, [42856]),
  (42859, [42858]), (42861, [42860]), (42863, [42862]), (42874, [42873]),
  (42876, [42875]), (42879, [42878]), (42881, [42880]), (42883, [42882]),
  (42885, [42884]), (42887, [42886]), (42892, [42891]), (42897, [42896]),
  (42899, [42898]), (42900, [42948]), (42903, [42902]), (42905, [42904]),
  (42907, [42906]), (42909, [42908]), (42911, [42910]), (42913, [42912]),
  (42915, [42914]), (42917, [42916]), (42919, [42918]), (42921, [42920]),
  (42933, [42932]), (42935, [42934]), (42937, [42936]), (42939, [42938]),
  (42941, [42940]), (42943, [42942]), (42945, [42944]), (42947, [42946]),
  (42952, [42951]), (42954, [42953]), (42961, [42960]), (42967, [42966]),
  (42969, [42968]), (42998, [42997]), (43859, [42931]), (43888, [5024]),
  (43889, [5025]), (43890, [5026]), (43891, [5027]), (43892, [5028]),
  (43893, [5029]), (43894, [5030]), (43895, [5031]), (43896, [5032]),
  (43897, [5033]), (43898, [5034]), (43899, [5035]), (43900, [5036]),
  (43901, [5037]), (43902, [5038]), (43903, [5039]), (43904, [5040]),
  (43905, [5041]), (43906, [5042]), (43907, [5043]), (43908, [5044]),
  (43909, [5045]), (43910, [5046]), (43911, [5047]), (43912, [5048]),
  (43913, [5049]), (43914, [5050]), (43915, [5051]), (43916, [5052]),
  (43917, [5053]), (43918, [5054]), (43919, [5055]), (43920, [5056]),
  (43921, [5057]), (43922, [5058]), (43923, [5059]), (43924, [5060]),
  (43925, [5061]), (43926, [5062]), (43927, [5063]), (43928, [5064]),
  (43929, [5065]), (43930, [5066]), (43931, [5067]), (43932, [5068]),
  (43933, [5069]), (43934, [5070]), (43935, [5071]), (43936, [5072]),
  (43937, [5073]), (43938, [5074]), (43939, [5075]), (43940, [5076]),
  (43941, [5077]), (43942, [5078]), (43943, [5079]), (43944, [5080]),
  (43945, [5081]), (43946, [5082]), (43947, [5083]), (43948, [5084]),
  (43949, [5085]), (43950, [5086]), (43951, [5087]), (43952, [5088]),
  (43953, [5089]), (43954, [5090]), (43955, [5091]), (43956, [5092]),
  (43957, [5093]), (43958, [5094]), (43959, [5095]), (43960, [5096]),
  (43961, [5097]), (43962, [5098]), (43963, [5099]), (43964, [5100]),
  (43965, [5101]), (43966, [5102]), (43967, [5103]), (64256, [70, 70]),
  (64257, [70, 73]), (64258, [70, 76]), (64259, [70, 70, 73]),
  (64260, [70, 70, 76]), (64261, [83, 84]), (64262, [83, 84]),
  (64275, [1348, 1350]), (64276, [1348, 1333]), (64277, [1348, 1339]),
  (64278, [1358, 1350]), (64279, [1348, 1341]), (65345, [65313]),
  (65346, [65314]), (65347, [65315]), (65348, [65316]), (65349, [65317]),
  (65350, [65318]), (65351, [65319]), (65352, [65320]), (65353, [65321]),
  (65354, [65322]), (65355, [65323]), (65356, [65324]), (65357, [65325]),
  (65358, [65326]), (65359, [65327]), (65360, [65328]), (65361, [65329]),
  (65362, [65330]), (65363, [65331]), (65364, [65332]), (65365, [65333]),
  (65366, [65334]), (65367, [65335]), (65368, [65336]), (65369, [65337]),
  (65370, [65338]), (66600, [66560]), (66601, [66561]), (66602, [66562]),
  (66603, [66563]), (66604, [66564]), (66605, [66565]), (66606, [66566]),
  (66607, [66567]), (66608, [66568]), (66609, [66569]), (66610, [66570]),
  (66611, [66571]), (66612, [66572]), (66613, [66573]), (66614, [66574]),
  (66615, [66575]), (66616, [66576]), (66617, [66577]), (66618, [66578]),
  (66619, [66579]), (66620, [66580]), (66621, [66581]), (66622, [66582]),
  (66623, [66583]), (66624, [66584]), (66625, [66585]), (66626, [66586]),
  (66627, [66587]), (66628, [66588]), (66629, [66589]), (66630, [66590]),
  (66631, [66591]), (66632, [66592]), (66633, [66593]), (66634, [66594]),
  (66635, [66595]), (66636, [66596]), (66637, [66597]), (66638, [66598]),
  (66639, [66599]), (66776, [66736]), (66777, [66737]), (66778, [66738]),
  (66779, [66739]), (66780, [66740]), (66781, [66741]), (66782, [66742]),
  (66783, [66743]), (66784, [66744]), (66785, [66745]), (66786, [66746]),
  (66787, [66747]), (66788, [66748]), (66789, [66749]), (66790, [66750]),
  (66791, [66751]), (66792, [66752]), (66793, [66753]), (66794, [66754]),
  (66795, [66755]), (66796, [66756]), (66797, [66757]), (66798, [66758]),
  (66799, [66759]), (66800, [66760]), (66801, [66761]), (66802, [66762]),
  (66803, [66763]), (66804, [66764]), (66805, [66765]), (66806, [66766]),
  (66807, [66767]), (66808, [66768]), (66809, [66769]), (66810, [66770]),
  (66811, [66771]), (66967, [66928]), (66968, [66929]), (66969, [66930]),
  (66970, [66931]), (66971, [66932]), (66972, [66933]), (66973, [66934]),
  (66974, [66935]), (66975, [66936]), (66976, [66937]), (66977, [66938]),
  (66979, [66940]), (66980, [66941]), (66981, [66942]), (66982, [66943]),
  (66983, [66944]), (66984, [66945]), (66985, [66946]), (66986, [66947]),
  (66987, [66948]), (66988, [66949]), (66989, [66950]), (66990, [66951]),
  (66991, [66952]), (66992, [66953]), (66993, [66954]), (66995, [66956]),
  (66996, [66957]), (66997, [66958]), (66998, [66959]), (66999, [66960]),
  (67000, [66961]), (67001, [66962]), (67003, [66964]), (67004, [66965]),
  (68800, [68736]), (68801, [68737]), (68802, [68738]), (68803, [68739]),
  (68804, [68740]), (68805, [68741]), (68806, [68742]), (68807, [68743]),
  (68808, [68744]), (68809, [68745]), (68810, [68746]), (68811, [68747]),
  (68812, [68748]), (68813, [68749]), (68814, [68750]), (68815, [68751]),
  (68816, [68752]), (68817, [68753]), (68818, [68754]), (68819, [68755]),
  (68820, [68756]), (68821, [68757]), (68822, [68758]), (68823, [68759]),
  (68824, [68760]), (68825, [68761]), (68826, [68762]), (68827, [68763]),
  (68828, [68764]), (68829, [68765]), (68830, [68766]), (68831, [68767]),
  (68832, [68768]), (68833, [68769]), (68834, [68770]), (68835, [68771]),
  (68836, [68772]), (68837, [68773]), (68838, [68774]), (68839, [68775]),
  (68840, [68776]), (68841, [68777]), (68842, [68778]), (68843, [68779]),
  (68844, [68780]), (68845, [68781]), (68846, [68782]), (68847, [68783]),
  (68848, [68784]), (68849, [68785]), (68850, [68786]), (71872, [71840]),
  (71873, [71841]), (71874, [71842]), (71875, [71843]), (71876, [71844]),
  (71877, [71845]), (71878, [71846]), (71879, [71847]), (71880, [71848]),
  (71881, [71849]), (71882, [71850]), (71883, [71851]), (71884, [71852]),
  (71885, [71853]), (71886, [71854]), (71887, [71855]), (71888, [71856]),
  (71889, [71857]), (71890, [71858]), (71891, [71859]), (71892, [71860]),
  (71893, [71861]), (71894, [71862]), (71895, [71863]), (71896, [71864]),
  (71897, [71865]), (71898, [71866]), (71899, [71867]), (71900, [71868]),
  (71901, [71869]), (71902, [71870]), (71903, [71871]), (93792, [93760]),
  (93793, [93761]), (93794, [93762]), (93795, [93763]), (93796, [93764]),
  (93797, [93765]), (93798, [93766]), (93799, [93767]), (93800, [93768]),
  (93801, [93769]), (93802, [93770]), (93803, [93771]), (93804, [93772]),
  (93805, [93773]), (93806, [93774]), (93807, [93775]), (93808, [93776]),
  (93809, [93777]), (93810, [93778]), (93811, [93779]), (93812, [93780]),
  (93813, [93781]), (93814, [93782]), (93815, [93783]), (93816, [93784]),
  (93817, [93785]), (93818, [93786]), (93819, [93787]), (93820, [93788]),
  (93821, [93789]), (93822, [93790]), (93823, [93791]), (125218, [125184]),
  (125219, [125185]), (125220, [125186]), (125221, [125187]),
  (125222, [125188]), (125223, [125189]), (125224, [125190]),
  (125225, [125191]), (125226, [125192]), (125227, [125193]),
  (125228, [125194]), (125229, [125195]), (125230, [125196]),
  (125231, [125197]), (125232, [125198]), (125233, [125199]),
  (125234, [125200]), (125235, [125201]), (125236, [125202]),
  (125237, [125203]), (125238, [125204]), (125239, [125205]),
  (125240, [125206]), (125241, [125207]), (125242, [125208]),
  (125243, [125209]), (125244, [125210]), (125245, [125211]),
  (125246, [125212]), (125247, [125213]), (125248, [125214]),
  (125249, [125215]), (125250, [125216]), (125251, [125217])]
set_option maxHeartbeats 2000000 in
/-- The table `upperTable` as a balanced search tree: `upperTree_toList`
proves its in-order contents are exactly `upperTable`, and
`upperTable_sorted` that the keys strictly increase, so `find` agrees
with association-list lookup on the table. -/
def upperTree : NatUpperMap :=
  (NatUpperMap.node (NatUpperMap.node (NatUpperMap.node (NatUpperMap.node (NatUpperMap.node
  (NatUpperMap.node (NatUpperMap.node (NatUpperMap.node (NatUpperMap.node (NatUpperMap.node
  NatUpperMap.leaf 97 [65] NatUpperMap.leaf) 98 [66] (NatUpperMap.node NatUpperMap.leaf 99 [67]
  (NatUpperMap.node NatUpperMap.leaf 100 [68] NatUpperMap.leaf))) 101 [69] (NatUpperMap.node
  (NatUpperMap.node NatUpperMap.leaf 102 [70] (NatUpperMap.node NatUpperMap.leaf 103 [71]
  NatUpperMap.leaf)) 104 [72] (NatUpperMap.node NatUpperMap.leaf 105 [73] (NatUpperMap.node
  NatUpperMap.leaf 106 [74] NatUpperMap.leaf)))) 107 [75] (NatUpperMap.node (NatUpperMap.node
  (NatUpperMap.node NatUpperMap.leaf 108 [76] (NatUpperMap.node NatUpperMap.leaf 109 [77]
  NatUpperMap.leaf)) 110 [78] (NatUpperMap.node NatUpperMap.leaf 111 [79] (NatUpperMap.node
  NatUpperMap.leaf 112 [80] NatUpperMap.leaf))) 113 [81] (NatUpperMap.node (NatUpperMap.node
  NatUpperMap.leaf 114 [82] (NatUpperMap.node NatUpperMap.leaf 115 [83] NatUpperMap.leaf)) 116
  [84] (NatUpperMap.node NatUpperMap.leaf 117 [85] (NatUpperMap.node NatUpperMap.leaf 118 [86]
  NatUpperMap.leaf))))) 119 [87] (NatUpperMap.node (NatUpperMap.node (NatUpperMap.node
  (NatUpperMap.node NatUpperMap.leaf 120 [88] (NatUpperMap.node NatUpperMap.leaf 121 [89]
  NatUpperMap.leaf)) 122 [90] (NatUpperMap.node NatUpperMap.leaf 181 [924] (NatUpperMap.node
  NatUpperMap.leaf 223 [83, 83] NatUpperMap.leaf))) 224 [192] (NatUpperMap.node
  (NatUpperMap.node NatUpperMap.leaf 225 [193] (NatUpperMap.node NatUpperMap.leaf 226 [194]
  NatUpperMap.leaf)) 227 [195] (NatUpperMap.node NatUpperMap.leaf 228 [196] (NatUpperMap.node
  NatUpperMap.leaf 229 [197] NatUpperMap.leaf)))) 230 [198] (NatUpperMap.node (NatUpperMap.node
  (NatUpperMap.node NatUpperMap.leaf 231 [199] (NatUpperMap.node NatUpperMap.leaf 232 [200]
  NatUpperMap.leaf)) 233 [201] (NatUpperMap.node NatUpperMap.leaf 234 [202] (NatUpperMap.node
  NatUpperMap.leaf 235 [203] NatUpperMap.leaf))) 236 [204] (NatUpperMap.node (NatUpperMap.node
  NatUpperMap.leaf 237 [205] (NatUpperMap.node NatUpperMap.leaf 238 [206] NatUpperMap.leaf))
  239 [207] (NatUpperMap.node NatUpperMap.leaf 240 [208] (NatUpperMap.node NatUpperMap.leaf 241
  [209] NatUpperMap.leaf)))))) 242 [210] (NatUpperMap.node (NatUpperMap.node (NatUpperMap.node
  (NatUpperMap.node (NatUpperMap.node NatUpperMap.leaf 243 [211] (NatUpperMap.node
  NatUpperMap.leaf 244 [212] NatUpperMap.leaf)) 245 [213] (NatUpperMap.node NatUpperMap.leaf
  246 [214] (NatUpperMap.node NatUpperMap.leaf 248 [216] NatUpperMap.leaf))) 249 [217]
  (NatUpperMap.node (NatUpperMap.node NatUpperMap.leaf 250 [218] (NatUpperMap.node
  NatUpperMap.leaf 251 [219] NatUpperMap.leaf)) 252 [220] (NatUpperMap.node NatUpperMap.leaf
  253 [221] (NatUpperMap.node NatUpperMap.leaf 254 [222] NatUpperMap.leaf)))) 255 [376]
  (NatUpperMap.node (NatUpperMap.node (NatUpperMap.node NatUpperMap.leaf 257 [256]
  (NatUpperMap.node NatUpperMap.leaf 259 [258] NatUpperMap.leaf)) 261 [260] (NatUpperMap.node
  NatUpperMap.leaf 263 [262] (NatUpperMap.node NatUpperMap.leaf 265 [264] NatUpperMap.leaf)))
  267 [266] (NatUpperMap.node (NatUpperMap.node NatUpperMap.leaf 269 [268] (NatUpperMap.node
  NatUpperMap.leaf 271 [270] NatUpperMap.leaf)) 273 [272] (NatUpperMap.node NatUpperMap.leaf
  275 [274] (NatUpperMap.node NatUpperMap.leaf 277 [276] NatUpperMap.leaf))))) 279 [278]
  (NatUpperMap.node (NatUpperMap.node (NatUpperMap.node (NatUpperMap.node NatUpperMap.leaf 281
  [280] (NatUpperMap.node NatUpperMap.leaf 283 [282] NatUpperMap.leaf)) 285 [284]
  (NatUpperMap.node NatUpperMap.leaf 287 [286] (NatUpperMap.node NatUpperMap.leaf 289 [288]
  NatUpperMap.leaf))) 291 [290] (NatUpperMap.node (NatUpperMap.node NatUpperMap.leaf 293 [292]
  (NatUpperMap.node NatUpperMap.leaf 295 [294] NatUpperMap.leaf)) 297 [296] (NatUpperMap.node
  NatUpperMap.leaf 299 [298] (NatUpperMap.node NatUpperMap.leaf 301 [300] NatUpperMap.leaf))))
  303 [302] (NatUpperMap.node (NatUpperMap.node (NatUpperMap.node NatUpperMap.leaf 305 [73]
  (NatUpperMap.node NatUpperMap.leaf 307 [306] NatUpperMap.leaf)) 309 [308] (NatUpperMap.node
  NatUpperMap.leaf 311 [310] (NatUpperMap.node NatUpperMap.leaf 314 [313] NatUpperMap.leaf)))
  316 [315] (NatUpperMap.node (NatUpperMap.node NatUpperMap.leaf 318 [317] (NatUpperMap.node
  NatUpperMap.leaf 320 [319] NatUpperMap.leaf)) 322 [321] (NatUpperMap.node NatUpperMap.leaf
  324 [323] (NatUpperMap.node NatUpperMap.leaf 326 [325] NatUpperMap.leaf))))))) 328 [327]
  (NatUpperMap.node (NatUpperMap.node (NatUpperMap.node (NatUpperMap.node (NatUpperMap.node
  (NatUpperMap.node NatUpperMap.leaf 329 [700, 78] NatUpperMap.leaf) 331 [330]
  (NatUpperMap.node NatUpperMap.leaf 333 [332] (NatUpperMap.node NatUpperMap.leaf 335 [334]
  NatUpperMap.leaf))) 337 [336] (NatUpperMap.node (NatUpperMap.node NatUpperMap.leaf 339 [338]
  (NatUpperMap.node NatUpperMap.leaf 341 [340] NatUpperMap.leaf)) 343 [342] (NatUpperMap.node
  NatUpperMap.leaf 345 [344] (NatUpperMap.node NatUpperMap.leaf 347 [346] NatUpperMap.leaf))))
  349 [348] (NatUpperMap.node (NatUpperMap.node (NatUpperMap.node NatUpperMap.leaf 351 [350]
  (NatUpperMap.node NatUpperMap.leaf 353 [352] NatUpperMap.leaf)) 355 [354] (NatUpperMap.node
  NatUpperMap.leaf 357 [356] (NatUpperMap.node NatUpperMap.leaf 359 [358] NatUpperMap.leaf)))
  361 [360] (NatUpperMap.node (NatUpperMap.node NatUpperMap.leaf 363 [362] (NatUpperMap.node
  NatUpperMap.leaf 365 [364] NatUpperMap.leaf)) 367 [366] (NatUpperMap.node NatUpperMap.leaf
  369 [368] (NatUpperMap.node NatUpperMap.leaf 371 [370] NatUpperMap.leaf))))) 373 [372]
  (NatUpperMap.node (NatUpperMap.node (NatUpperMap.node (NatUpperMap.node NatUpperMap.leaf 375
  [374] (NatUpperMap.node NatUpperMap.leaf 378 [377] NatUpperMap.leaf)) 380 [379]
  (NatUpperMap.node NatUpperMap.leaf 382 [381] (NatUpperMap.node NatUpperMap.leaf 383 [83]
  NatUpperMap.leaf))) 384 [579] (NatUpperMap.node (NatUpperMap.node NatUpperMap.leaf 387 [386]
  (NatUpperMap.node NatUpperMap.leaf 389 [388] NatUpperMap.leaf)) 392 [391] (NatUpperMap.node
  NatUpperMap.leaf 396 [395] (NatUpperMap.node NatUpperMap.leaf 402 [401] NatUpperMap.leaf))))
  405 [502] (NatUpperMap.node (NatUpperMap.node (NatUpperMap.node NatUpperMap.leaf 409 [408]
  (NatUpperMap.node NatUpperMap.leaf 410 [573] NatUpperMap.leaf)) 414 [544] (NatUpperMap.node
  NatUpperMap.leaf 417 [416] (NatUpperMap.node NatUpperMap.leaf 419 [418] NatUpperMap.leaf)))
  421 [420] (NatUpperMap.node (NatUpperMap.node NatUpperMap.leaf 424 [423] (NatUpperMap.node
  NatUpperMap.leaf 429 [428] NatUpperMap.leaf)) 432 [431] (NatUpperMap.node NatUpperMap.leaf
  436 [435] (NatUpperMap.node NatUpperMap.leaf 438 [437] NatUpperMap.leaf)))))) 441 [440]
  (NatUpperMap.node (NatUpperMap.node (NatUpperMap.node (NatUpperMap.node (NatUpperMap.node
  NatUpperMap.leaf 445 [444] (NatUpperMap.node NatUpperMap.leaf 447 [503] NatUpperMap.leaf))
  453 [452] (NatUpperMap.node NatUpperMap.leaf 454 [452] (NatUpperMap.node NatUpperMap.leaf 456
  [455] NatUpperMap.leaf))) 457 [455] (NatUpperMap.node (NatUpperMap.node NatUpperMap.leaf 459
  [458] (NatUpperMap.node NatUpperMap.leaf 460 [458] NatUpperMap.leaf)) 462 [461]
  (NatUpperMap.node NatUpperMap.leaf 464 [463] (NatUpperMap.node NatUpperMap.leaf 466 [465]
  NatUpperMap.leaf)))) 468 [467] (NatUpperMap.node (NatUpperMap.node (NatUpperMap.node
  NatUpperMap.leaf 470 [469] (NatUpperMap.node NatUpperMap.leaf 472 [471] NatUpperMap.leaf))
  474 [473] (NatUpperMap.node NatUpperMap.leaf 476 [475] (NatUpperMap.node NatUpperMap.leaf 477
  [398] NatUpperMap.leaf))) 479 [478] (NatUpperMap.node (NatUpperMap.node NatUpperMap.leaf 481
  [480] (NatUpperMap.node NatUpperMap.leaf 483 [482] NatUpperMap.leaf)) 485 [484]
  (NatUpperMap.node NatUpperMap.leaf 487 [486] (NatUpperMap.node NatUpperMap.leaf 489 [488]
  NatUpperMap.leaf))))) 491 [490] (NatUpperMap.node (NatUpperMap.node (NatUpperMap.node
  (NatUpperMap.node NatUpperMap.leaf 493 [492] (NatUpperMap.node NatUpperMap.leaf 495 [494]
  NatUpperMap.leaf)) 496 [74, 780] (NatUpperMap.node NatUpperMap.leaf 498 [497]
  (NatUpperMap.node NatUpperMap.leaf 499 [497] NatUpperMap.leaf))) 501 [500] (NatUpperMap.node
  (NatUpperMap.node NatUpperMap.leaf 505 [504] (NatUpperMap.node NatUpperMap.leaf 507 [506]
  NatUpperMap.leaf)) 509 [508] (NatUpperMap.node NatUpperMap.leaf 511 [510] (NatUpperMap.node
  NatUpperMap.leaf 513 [512] NatUpperMap.leaf)))) 515 [514] (NatUpperMap.node (NatUpperMap.node
  (NatUpperMap.node NatUpperMap.leaf 517 [516] (NatUpperMap.node NatUpperMap.leaf 519 [518]
  NatUpperMap.leaf)) 521 [520] (NatUpperMap.node NatUpperMap.leaf 523 [522] (NatUpperMap.node
  NatUpperMap.leaf 525 [524] NatUpperMap.leaf))) 527 [526] (NatUpperMap.node (NatUpperMap.node
  NatUpperMap.leaf 529 [528] (NatUpperMap.node NatUpperMap.leaf 531 [530] NatUpperMap.leaf))
  533 [532] (NatUpperMap.node NatUpperMap.leaf 535 [534] (NatUpperMap.node NatUpperMap.leaf 537
  [536] NatUpperMap.leaf)))))))) 539 [538] (NatUpperMap.node (NatUpperMap.node
  (NatUpperMap.node (NatUpperMap.node (NatUpperMap.node (NatUpperMap.node (NatUpperMap.node
  NatUpperMap.leaf 541 [540] NatUpperMap.leaf) 543 [542] (NatUpperMap.node NatUpperMap.leaf 547
  [546] (NatUpperMap.node NatUpperMap.leaf 549 [548] NatUpperMap.leaf))) 551 [550]
  (NatUpperMap.node (NatUpperMap.node NatUpperMap.leaf 553 [552] (NatUpperMap.node
  NatUpperMap.leaf 555 [554] NatUpperMap.leaf)) 557 [556] (NatUpperMap.node NatUpperMap.leaf
  559 [558] (NatUpperMap.node NatUpperMap.leaf 561 [560] NatUpperMap.leaf)))) 563 [562]
  (NatUpperMap.node (NatUpperMap.node (NatUpperMap.node NatUpperMap.leaf 572 [571]
  (NatUpperMap.node NatUpperMap.leaf 575 [11390] NatUpperMap.leaf)) 576 [11391]
  (NatUpperMap.node NatUpperMap.leaf 578 [577] (NatUpperMap.node NatUpperMap.leaf 583 [582]
  NatUpperMap.leaf))) 585 [584] (NatUpperMap.node (NatUpperMap.node NatUpperMap.leaf 587 [586]
  (NatUpperMap.node NatUpperMap.leaf 589 [588] NatUpperMap.leaf)) 591 [590] (NatUpperMap.node
  NatUpperMap.leaf 592 [11375] (NatUpperMap.node NatUpperMap.leaf 593 [11373]
  NatUpperMap.leaf))))) 594 [11376] (NatUpperMap.node (NatUpperMap.node (NatUpperMap.node
  (NatUpperMap.node NatUpperMap.leaf 595 [385] (NatUpperMap.node NatUpperMap.leaf 596 [390]
  NatUpperMap.leaf)) 598 [393] (NatUpperMap.node NatUpperMap.leaf 599 [394] (NatUpperMap.node
  NatUpperMap.leaf 601 [399] NatUpperMap.leaf))) 603 [400] (NatUpperMap.node (NatUpperMap.node
  NatUpperMap.leaf 604 [42923] (NatUpperMap.node NatUpperMap.leaf 608 [403] NatUpperMap.leaf))
  609 [42924] (NatUpperMap.node NatUpperMap.leaf 611 [404] (NatUpperMap.node NatUpperMap.leaf
  613 [42893] NatUpperMap.leaf)))) 614 [42922] (NatUpperMap.node (NatUpperMap.node
  (NatUpperMap.node NatUpperMap.leaf 616 [407] (NatUpperMap.node NatUpperMap.leaf 617 [406]
  NatUpperMap.leaf)) 618 [42926] (NatUpperMap.node NatUpperMap.leaf 619 [11362]
  (NatUpperMap.node NatUpperMap.leaf 620 [42925] NatUpperMap.leaf))) 623 [412]
  (NatUpperMap.node (NatUpperMap.node NatUpperMap.leaf 625 [11374] (NatUpperMap.node
  NatUpperMap.leaf 626 [413] NatUpperMap.leaf)) 629 [415] (NatUpperMap.node NatUpperMap.leaf
  637 [11364] (NatUpperMap.node NatUpperMap.leaf 640 [422] NatUpperMap.leaf)))))) 642 [42949]
  (NatUpperMap.node (NatUpperMap.node (NatUpperMap.node (NatUpperMap.node (NatUpperMap.node
  NatUpperMap.leaf 643 [425] (NatUpperMap.node NatUpperMap.leaf 647 [42929] NatUpperMap.leaf))
  648 [430] (NatUpperMap.node NatUpperMap.leaf 649 [580] (NatUpperMap.node NatUpperMap.leaf 650
  [433] NatUpperMap.leaf))) 651 [434] (NatUpperMap.node (NatUpperMap.node NatUpperMap.leaf 652
  [581] (NatUpperMap.node NatUpperMap.leaf 658 [439] NatUpperMap.leaf)) 669 [42930]
  (NatUpperMap.node NatUpperMap.leaf 670 [42928] (NatUpperMap.node NatUpperMap.leaf 837 [921]
  NatUpperMap.leaf)))) 881 [880] (NatUpperMap.node (NatUpperMap.node (NatUpperMap.node
  NatUpperMap.leaf 883 [882] (NatUpperMap.node NatUpperMap.leaf 887 [886] NatUpperMap.leaf))
  891 [1021] (NatUpperMap.node NatUpperMap.leaf 892 [1022] (NatUpperMap.node NatUpperMap.leaf
  893 [1023] NatUpperMap.leaf))) 912 [921, 776, 769] (NatUpperMap.node (NatUpperMap.node
  NatUpperMap.leaf 940 [902] (NatUpperMap.node NatUpperMap.leaf 941 [904] NatUpperMap.leaf))
  942 [905] (NatUpperMap.node NatUpperMap.leaf 943 [906] (NatUpperMap.node NatUpperMap.leaf 944
  [933, 776, 769] NatUpperMap.leaf))))) 945 [913] (NatUpperMap.node (NatUpperMap.node
  (NatUpperMap.node (NatUpperMap.node NatUpperMap.leaf 946 [914] (NatUpperMap.node
  NatUpperMap.leaf 947 [915] NatUpperMap.leaf)) 948 [916] (NatUpperMap.node NatUpperMap.leaf
  949 [917] (NatUpperMap.node NatUpperMap.leaf 950 [918] NatUpperMap.leaf))) 951 [919]
  (NatUpperMap.node (NatUpperMap.node NatUpperMap.leaf 952 [920] (NatUpperMap.node
  NatUpperMap.leaf 953 [921] NatUpperMap.leaf)) 954 [922] (NatUpperMap.node NatUpperMap.leaf
  955 [923] (NatUpperMap.node NatUpperMap.leaf 956 [924] NatUpperMap.leaf)))) 957 [925]
  (NatUpperMap.node (NatUpperMap.node (NatUpperMap.node NatUpperMap.leaf 958 [926]
  (NatUpperMap.node NatUpperMap.leaf 959 [927] NatUpperMap.leaf)) 960 [928] (NatUpperMap.node
  NatUpperMap.leaf 961 [929] (NatUpperMap.node NatUpperMap.leaf 962 [931] NatUpperMap.leaf)))
  963 [931] (NatUpperMap.node (NatUpperMap.node NatUpperMap.leaf 964 [932] (NatUpperMap.node
  NatUpperMap.leaf 965 [933] NatUpperMap.leaf)) 966 [934] (NatUpperMap.node NatUpperMap.leaf
  967 [935] (NatUpperMap.node NatUpperMap.leaf 968 [936] NatUpperMap.leaf))))))) 969 [937]
  (NatUpperMap.node (NatUpperMap.node (NatUpperMap.node (NatUpperMap.node (NatUpperMap.node
  (NatUpperMap.node NatUpperMap.leaf 970 [938] (NatUpperMap.node NatUpperMap.leaf 971 [939]
  NatUpperMap.leaf)) 972 [908] (NatUpperMap.node NatUpperMap.leaf 973 [910] (NatUpperMap.node
  NatUpperMap.leaf 974 [911] NatUpperMap.leaf))) 976 [914] (NatUpperMap.node (NatUpperMap.node
  NatUpperMap.leaf 977 [920] (NatUpperMap.node NatUpperMap.leaf 981 [934] NatUpperMap.leaf))
  982 [928] (NatUpperMap.node NatUpperMap.leaf 983 [975] (NatUpperMap.node NatUpperMap.leaf 985
  [984] NatUpperMap.leaf)))) 987 [986] (NatUpperMap.node (NatUpperMap.node (NatUpperMap.node
  NatUpperMap.leaf 989 [988] (NatUpperMap.node NatUpperMap.leaf 991 [990] NatUpperMap.leaf))
  993 [992] (NatUpperMap.node NatUpperMap.leaf 995 [994] (NatUpperMap.node NatUpperMap.leaf 997
  [996] NatUpperMap.leaf))) 999 [998] (NatUpperMap.node (NatUpperMap.node NatUpperMap.leaf 1001
  [1000] (NatUpperMap.node NatUpperMap.leaf 1003 [1002] NatUpperMap.leaf)) 1005 [1004]
  (NatUpperMap.node NatUpperMap.leaf 1007 [1006] (NatUpperMap.node NatUpperMap.leaf 1008 [922]
  NatUpperMap.leaf))))) 1009 [929] (NatUpperMap.node (NatUpperMap.node (NatUpperMap.node
  (NatUpperMap.node NatUpperMap.leaf 1010 [1017] (NatUpperMap.node NatUpperMap.leaf 1011 [895]
  NatUpperMap.leaf)) 1013 [917] (NatUpperMap.node NatUpperMap.leaf 1016 [1015]
  (NatUpperMap.node NatUpperMap.leaf 1019 [1018] NatUpperMap.leaf))) 1072 [1040]
  (NatUpperMap.node (NatUpperMap.node NatUpperMap.leaf 1073 [1041] (NatUpperMap.node
  NatUpperMap.leaf 1074 [1042] NatUpperMap.leaf)) 1075 [1043] (NatUpperMap.node
  NatUpperMap.leaf 1076 [1044] (NatUpperMap.node NatUpperMap.leaf 1077 [1045]
  NatUpperMap.leaf)))) 1078 [1046] (NatUpperMap.node (NatUpperMap.node (NatUpperMap.node
  NatUpperMap.leaf 1079 [1047] (NatUpperMap.node NatUpperMap.leaf 1080 [1048]
  NatUpperMap.leaf)) 1081 [1049] (NatUpperMap.node NatUpperMap.leaf 1082 [1050]
  (NatUpperMap.node NatUpperMap.leaf 1083 [1051] NatUpperMap.leaf))) 1084 [1052]
  (NatUpperMap.node (NatUpperMap.node NatUpperMap.leaf 1085 [1053] (NatUpperMap.node
  NatUpperMap.leaf 1086 [1054] NatUpperMap.leaf)) 1087 [1055] (NatUpperMap.node
  NatUpperMap.leaf 1088 [1056] (NatUpperMap.node NatUpperMap.leaf 1089 [1057]
  NatUpperMap.leaf)))))) 1090 [1058] (NatUpperMap.node (NatUpperMap.node (NatUpperMap.node
  (NatUpperMap.node (NatUpperMap.node NatUpperMap.leaf 1091 [1059] (NatUpperMap.node
  NatUpperMap.leaf 1092 [1060] NatUpperMap.leaf)) 1093 [1061] (NatUpperMap.node
  NatUpperMap.leaf 1094 [1062] (NatUpperMap.node NatUpperMap.leaf 1095 [1063]
  NatUpperMap.leaf))) 1096 [1064] (NatUpperMap.node (NatUpperMap.node NatUpperMap.leaf 1097
  [1065] (NatUpperMap.node NatUpperMap.leaf 1098 [1066] NatUpperMap.leaf)) 1099 [1067]
  (NatUpperMap.node NatUpperMap.leaf 1100 [1068] (NatUpperMap.node NatUpperMap.leaf 1101 [1069]
  NatUpperMap.leaf)))) 1102 [1070] (NatUpperMap.node (NatUpperMap.node (NatUpperMap.node
  NatUpperMap.leaf 1103 [1071] (NatUpperMap.node NatUpperMap.leaf 1104 [1024]
  NatUpperMap.leaf)) 1105 [1025] (NatUpperMap.node NatUpperMap.leaf 1106 [1026]
  (NatUpperMap.node NatUpperMap.leaf 1107 [1027] NatUpperMap.leaf))) 1108 [1028]
  (NatUpperMap.node (NatUpperMap.node NatUpperMap.leaf 1109 [1029] (NatUpperMap.node
  NatUpperMap.leaf 1110 [1030] NatUpperMap.leaf)) 1111 [1031] (NatUpperMap.node
  NatUpperMap.leaf 1112 [1032] (NatUpperMap.node NatUpperMap.leaf 1113 [1033]
  NatUpperMap.leaf))))) 1114 [1034] (NatUpperMap.node (NatUpperMap.node (NatUpperMap.node
  (NatUpperMap.node NatUpperMap.leaf 1115 [1035] (NatUpperMap.node NatUpperMap.leaf 1116 [1036]
  NatUpperMap.leaf)) 1117 [1037] (NatUpperMap.node NatUpperMap.leaf 1118 [1038]
  (NatUpperMap.node NatUpperMap.leaf 1119 [1039] NatUpperMap.leaf))) 1121 [1120]
  (NatUpperMap.node (NatUpperMap.node NatUpperMap.leaf 1123 [1122] (NatUpperMap.node
  NatUpperMap.leaf 1125 [1124] NatUpperMap.leaf)) 1127 [1126] (NatUpperMap.node
  NatUpperMap.leaf 1129 [1128] (NatUpperMap.node NatUpperMap.leaf 1131 [1130]
  NatUpperMap.leaf)))) 1133 [1132] (NatUpperMap.node (NatUpperMap.node (NatUpperMap.node
  NatUpperMap.leaf 1135 [1134] (NatUpperMap.node NatUpperMap.leaf 1137 [1136]
  NatUpperMap.leaf)) 1139 [1138] (NatUpperMap.node NatUpperMap.leaf 1141 [1140]
  (NatUpperMap.node NatUpperMap.leaf 1143 [1142] NatUpperMap.leaf))) 1145 [1144]
  (NatUpperMap.node (NatUpperMap.node NatUpperMap.leaf 1147 [1146] (NatUpperMap.node
  NatUpperMap.leaf 1149 [1148] NatUpperMap.leaf)) 1151 [1150] (NatUpperMap.node
  NatUpperMap.leaf 1153 [1152] (NatUpperMap.node NatUpperMap.leaf 1163 [1162]
  NatUpperMap.leaf))))))))) 1165 [1164] (NatUpperMap.node (NatUpperMap.node (NatUpperMap.node
  (NatUpperMap.node (NatUpperMap.node (NatUpperMap.node (NatUpperMap.node (NatUpperMap.node
  NatUpperMap.leaf 1167 [1166] NatUpperMap.leaf) 1169 [1168] (NatUpperMap.node NatUpperMap.leaf
  1171 [1170] (NatUpperMap.node NatUpperMap.leaf 1173 [1172] NatUpperMap.leaf))) 1175 [1174]
  (NatUpperMap.node (NatUpperMap.node NatUpperMap.leaf 1177 [1176] (NatUpperMap.node
  NatUpperMap.leaf 1179 [1178] NatUpperMap.leaf)) 1181 [1180] (NatUpperMap.node
  NatUpperMap.leaf 1183 [1182] (NatUpperMap.node NatUpperMap.leaf 1185 [1184]
  NatUpperMap.leaf)))) 1187 [1186] (NatUpperMap.node (NatUpperMap.node (NatUpperMap.node
  NatUpperMap.leaf 1189 [1188] (NatUpperMap.node NatUpperMap.leaf 1191 [1190]
  NatUpperMap.leaf)) 1193 [1192] (NatUpperMap.node NatUpperMap.leaf 1195 [1194]
  (NatUpperMap.node NatUpperMap.leaf 1197 [1196] NatUpperMap.leaf))) 1199 [1198]
  (NatUpperMap.node (NatUpperMap.node NatUpperMap.leaf 1201 [1200] (NatUpperMap.node
  NatUpperMap.leaf 1203 [1202] NatUpperMap.leaf)) 1205 [1204] (NatUpperMap.node
  NatUpperMap.leaf 1207 [1206] (NatUpperMap.node NatUpperMap.leaf 1209 [1208]
  NatUpperMap.leaf))))) 1211 [1210] (NatUpperMap.node (NatUpperMap.node (NatUpperMap.node
  (NatUpperMap.node NatUpperMap.leaf 1213 [1212] (NatUpperMap.node NatUpperMap.leaf 1215 [1214]
  NatUpperMap.leaf)) 1218 [1217] (NatUpperMap.node NatUpperMap.leaf 1220 [1219]
  (NatUpperMap.node NatUpperMap.leaf 1222 [1221] NatUpperMap.leaf))) 1224 [1223]
  (NatUpperMap.node (NatUpperMap.node NatUpperMap.leaf 1226 [1225] (NatUpperMap.node
  NatUpperMap.leaf 1228 [1227] NatUpperMap.leaf)) 1230 [1229] (NatUpperMap.node
  NatUpperMap.leaf 1231 [1216] (NatUpperMap.node NatUpperMap.leaf 1233 [1232]
  NatUpperMap.leaf)))) 1235 [1234] (NatUpperMap.node (NatUpperMap.node (NatUpperMap.node
  NatUpperMap.leaf 1237 [1236] (NatUpperMap.node NatUpperMap.leaf 1239 [1238]
  NatUpperMap.leaf)) 1241 [1240] (NatUpperMap.node NatUpperMap.leaf 1243 [1242]
  (NatUpperMap.node NatUpperMap.leaf 1245 [1244] NatUpperMap.leaf))) 1247 [1246]
  (NatUpperMap.node (NatUpperMap.node NatUpperMap.leaf 1249 [1248] (NatUpperMap.node
  NatUpperMap.leaf 1251 [1250] NatUpperMap.leaf)) 1253 [1252] (NatUpperMap.node
  NatUpperMap.leaf 1255 [1254] (NatUpperMap.node NatUpperMap.leaf 1257 [1256]
  NatUpperMap.leaf)))))) 1259 [1258] (NatUpperMap.node (NatUpperMap.node (NatUpperMap.node
  (NatUpperMap.node (NatUpperMap.node NatUpperMap.leaf 1261 [1260] (NatUpperMap.node
  NatUpperMap.leaf 1263 [1262] NatUpperMap.leaf)) 1265 [1264] (NatUpperMap.node
  NatUpperMap.leaf 1267 [1266] (NatUpperMap.node NatUpperMap.leaf 1269 [1268]
  NatUpperMap.leaf))) 1271 [1270] (NatUpperMap.node (NatUpperMap.node NatUpperMap.leaf 1273
  [1272] (NatUpperMap.node NatUpperMap.leaf 1275 [1274] NatUpperMap.leaf)) 1277 [1276]
  (NatUpperMap.node NatUpperMap.leaf 1279 [1278] (NatUpperMap.node NatUpperMap.leaf 1281 [1280]
  NatUpperMap.leaf)))) 1283 [1282] (NatUpperMap.node (NatUpperMap.node (NatUpperMap.node
  NatUpperMap.leaf 1285 [1284] (NatUpperMap.node NatUpperMap.leaf 1287 [1286]
  NatUpperMap.leaf)) 1289 [1288] (NatUpperMap.node NatUpperMap.leaf 1291 [1290]
  (NatUpperMap.node NatUpperMap.leaf 1293 [1292] NatUpperMap.leaf))) 1295 [1294]
  (NatUpperMap.node (NatUpperMap.node NatUpperMap.leaf 1297 [1296] (NatUpperMap.node
  NatUpperMap.leaf 1299 [1298] NatUpperMap.leaf)) 1301 [1300] (NatUpperMap.node
  NatUpperMap.leaf 1303 [1302] (NatUpperMap.node NatUpperMap.leaf 1305 [1304]
  NatUpperMap.leaf))))) 1307 [1306] (NatUpperMap.node (NatUpperMap.node (NatUpperMap.node
  (NatUpperMap.node NatUpperMap.leaf 1309 [1308] (NatUpperMap.node NatUpperMap.leaf 1311 [1310]
  NatUpperMap.leaf)) 1313 [1312] (NatUpperMap.node NatUpperMap.leaf 1315 [1314]
  (NatUpperMap.node NatUpperMap.leaf 1317 [1316] NatUpperMap.leaf))) 1319 [1318]
  (NatUpperMap.node (NatUpperMap.node NatUpperMap.leaf 1321 [1320] (NatUpperMap.node
  NatUpperMap.leaf 1323 [1322] NatUpperMap.leaf)) 1325 [1324] (NatUpperMap.node
  NatUpperMap.leaf 1327 [1326] (NatUpperMap.node NatUpperMap.leaf 1377 [1329]
  NatUpperMap.leaf)))) 1378 [1330] (NatUpperMap.node (NatUpperMap.node (NatUpperMap.node
  NatUpperMap.leaf 1379 [1331] (NatUpperMap.node NatUpperMap.leaf 1380 [1332]
  NatUpperMap.leaf)) 1381 [1333] (NatUpperMap.node NatUpperMap.leaf 1382 [1334]
  (NatUpperMap.node NatUpperMap.leaf 1383 [1335] NatUpperMap.leaf))) 1384 [1336]
  (NatUpperMap.node (NatUpperMap.node NatUpperMap.leaf 1385 [1337] (NatUpperMap.node
  NatUpperMap.leaf 1386 [1338] NatUpperMap.leaf)) 1387 [1339] (NatUpperMap.node
  NatUpperMap.leaf 1388 [1340] (NatUpperMap.node NatUpperMap.leaf 1389 [1341]
  NatUpperMap.leaf))))))) 1390 [1342] (NatUpperMap.node (NatUpperMap.node (NatUpperMap.node
  (NatUpperMap.node (NatUpperMap.node (NatUpperMap.node NatUpperMap.leaf 1391 [1343]
  (NatUpperMap.node NatUpperMap.leaf 1392 [1344] NatUpperMap.leaf)) 1393 [1345]
  (NatUpperMap.node NatUpperMap.leaf 1394 [1346] (NatUpperMap.node NatUpperMap.leaf 1395 [1347]
  NatUpperMap.leaf))) 1396 [1348] (NatUpperMap.node (NatUpperMap.node NatUpperMap.leaf 1397
  [1349] (NatUpperMap.node NatUpperMap.leaf 1398 [1350] NatUpperMap.leaf)) 1399 [1351]
  (NatUpperMap.node NatUpperMap.leaf 1400 [1352] (NatUpperMap.node NatUpperMap.leaf 1401 [1353]
  NatUpperMap.leaf)))) 1402 [1354] (NatUpperMap.node (NatUpperMap.node (NatUpperMap.node
  NatUpperMap.leaf 1403 [1355] (NatUpperMap.node NatUpperMap.leaf 1404 [1356]
  NatUpperMap.leaf)) 1405 [1357] (NatUpperMap.node NatUpperMap.leaf 1406 [1358]
  (NatUpperMap.node NatUpperMap.leaf 1407 [1359] NatUpperMap.leaf))) 1408 [1360]
  (NatUpperMap.node (NatUpperMap.node NatUpperMap.leaf 1409 [1361] (NatUpperMap.node
  NatUpperMap.leaf 1410 [1362] NatUpperMap.leaf)) 1411 [1363] (NatUpperMap.node
  NatUpperMap.leaf 1412 [1364] (NatUpperMap.node NatUpperMap.leaf 1413 [1365]
  NatUpperMap.leaf))))) 1414 [1366] (NatUpperMap.node (NatUpperMap.node (NatUpperMap.node
  (NatUpperMap.node NatUpperMap.leaf 1415 [1333, 1362] (NatUpperMap.node NatUpperMap.leaf 4304
  [7312] NatUpperMap.leaf)) 4305 [7313] (NatUpperMap.node NatUpperMap.leaf 4306 [7314]
  (NatUpperMap.node NatUpperMap.leaf 4307 [7315] NatUpperMap.leaf))) 4308 [7316]
  (NatUpperMap.node (NatUpperMap.node NatUpperMap.leaf 4309 [7317] (NatUpperMap.node
  NatUpperMap.leaf 4310 [7318] NatUpperMap.leaf)) 4311 [7319] (NatUpperMap.node
  NatUpperMap.leaf 4312 [7320] (NatUpperMap.node NatUpperMap.leaf 4313 [7321]
  NatUpperMap.leaf)))) 4314 [7322] (NatUpperMap.node (NatUpperMap.node (NatUpperMap.node
  NatUpperMap.leaf 4315 [7323] (NatUpperMap.node NatUpperMap.leaf 4316 [7324]
  NatUpperMap.leaf)) 4317 [7325] (NatUpperMap.node NatUpperMap.leaf 4318 [7326]
  (NatUpperMap.node NatUpperMap.leaf 4319 [7327] NatUpperMap.leaf))) 4320 [7328]
  (NatUpperMap.node (NatUpperMap.node NatUpperMap.leaf 4321 [7329] (NatUpperMap.node
  NatUpperMap.leaf 4322 [7330] NatUpperMap.leaf)) 4323 [7331] (NatUpperMap.node
  NatUpperMap.leaf 4324 [7332] (NatUpperMap.node NatUpperMap.leaf 4325 [7333]
  NatUpperMap.leaf)))))) 4326 [7334] (NatUpperMap.node (NatUpperMap.node (NatUpperMap.node
  (NatUpperMap.node (NatUpperMap.node NatUpperMap.leaf 4327 [7335] (NatUpperMap.node
  NatUpperMap.leaf 4328 [7336] NatUpperMap.leaf)) 4329 [7337] (NatUpperMap.node
  NatUpperMap.leaf 4330 [7338] (NatUpperMap.node NatUpperMap.leaf 4331 [7339]
  NatUpperMap.leaf))) 4332 [7340] (NatUpperMap.node (NatUpperMap.node NatUpperMap.leaf 4333
  [7341] (NatUpperMap.node NatUpperMap.leaf 4334 [7342] NatUpperMap.leaf)) 4335 [7343]
  (NatUpperMap.node NatUpperMap.leaf 4336 [7344] (NatUpperMap.node NatUpperMap.leaf 4337 [7345]
  NatUpperMap.leaf)))) 4338 [7346] (NatUpperMap.node (NatUpperMap.node (NatUpperMap.node
  NatUpperMap.leaf 4339 [7347] (NatUpperMap.node NatUpperMap.leaf 4340 [7348]
  NatUpperMap.leaf)) 4341 [7349] (NatUpperMap.node NatUpperMap.leaf 4342 [7350]
  (NatUpperMap.node NatUpperMap.leaf 4343 [7351] NatUpperMap.leaf))) 4344 [7352]
  (NatUpperMap.node (NatUpperMap.node NatUpperMap.leaf 4345 [7353] (NatUpperMap.node
  NatUpperMap.leaf 4346 [7354] NatUpperMap.leaf)) 4349 [7357] (NatUpperMap.node
  NatUpperMap.leaf 4350 [7358] (NatUpperMap.node NatUpperMap.leaf 4351 [7359]
  NatUpperMap.leaf))))) 5112 [5104] (NatUpperMap.node (NatUpperMap.node (NatUpperMap.node
  (NatUpperMap.node NatUpperMap.leaf 5113 [5105] (NatUpperMap.node NatUpperMap.leaf 5114 [5106]
  NatUpperMap.leaf)) 5115 [5107] (NatUpperMap.node NatUpperMap.leaf 5116 [5108]
  (NatUpperMap.node NatUpperMap.leaf 5117 [5109] NatUpperMap.leaf))) 7296 [1042]
  (NatUpperMap.node (NatUpperMap.node NatUpperMap.leaf 7297 [1044] (NatUpperMap.node
  NatUpperMap.leaf 7298 [1054] NatUpperMap.leaf)) 7299 [1057] (NatUpperMap.node
  NatUpperMap.leaf 7300 [1058] (NatUpperMap.node NatUpperMap.leaf 7301 [1058]
  NatUpperMap.leaf)))) 7302 [1066] (NatUpperMap.node (NatUpperMap.node (NatUpperMap.node
  NatUpperMap.leaf 7303 [1122] (NatUpperMap.node NatUpperMap.leaf 7304 [42570]
  NatUpperMap.leaf)) 7545 [42877] (NatUpperMap.node NatUpperMap.leaf 7549 [11363]
  (NatUpperMap.node NatUpperMap.leaf 7566 [42950] NatUpperMap.leaf))) 7681 [7680]
  (NatUpperMap.node (NatUpperMap.node NatUpperMap.leaf 7683 [7682] (NatUpperMap.node
  NatUpperMap.leaf 7685 [7684] NatUpperMap.leaf)) 7687 [7686] (NatUpperMap.node
  NatUpperMap.leaf 7689 [7688] (NatUpperMap.node NatUpperMap.leaf 7691 [7690]
  NatUpperMap.leaf)))))))) 7693 [7692] (NatUpperMap.node (NatUpperMap.node (NatUpperMap.node
  (NatUpperMap.node (NatUpperMap.node (NatUpperMap.node (NatUpperMap.node NatUpperMap.leaf 7695
  [7694] NatUpperMap.leaf) 7697 [7696] (NatUpperMap.node NatUpperMap.leaf 7699 [7698]
  (NatUpperMap.node NatUpperMap.leaf 7701 [7700] NatUpperMap.leaf))) 7703 [7702]
  (NatUpperMap.node (NatUpperMap.node NatUpperMap.leaf 7705 [7704] (NatUpperMap.node
  NatUpperMap.leaf 7707 [7706] NatUpperMap.leaf)) 7709 [7708] (NatUpperMap.node
  NatUpperMap.leaf 7711 [7710] (NatUpperMap.node NatUpperMap.leaf 7713 [7712]
  NatUpperMap.leaf)))) 7715 [7714] (NatUpperMap.node (NatUpperMap.node (NatUpperMap.node
  NatUpperMap.leaf 7717 [7716] (NatUpperMap.node NatUpperMap.leaf 7719 [7718]
  NatUpperMap.leaf)) 7721 [7720] (NatUpperMap.node NatUpperMap.leaf 7723 [7722]
  (NatUpperMap.node NatUpperMap.leaf 7725 [7724] NatUpperMap.leaf))) 7727 [7726]
  (NatUpperMap.node (NatUpperMap.node NatUpperMap.leaf 7729 [7728] (NatUpperMap.node
  NatUpperMap.leaf 7731 [7730] NatUpperMap.leaf)) 7733 [7732] (NatUpperMap.node
  NatUpperMap.leaf 7735 [7734] (NatUpperMap.node NatUpperMap.leaf 7737 [7736]
  NatUpperMap.leaf))))) 7739 [7738] (NatUpperMap.node (NatUpperMap.node (NatUpperMap.node
  (NatUpperMap.node NatUpperMap.leaf 7741 [7740] (NatUpperMap.node NatUpperMap.leaf 7743 [7742]
  NatUpperMap.leaf)) 7745 [7744] (NatUpperMap.node NatUpperMap.leaf 7747 [7746]
  (NatUpperMap.node NatUpperMap.leaf 7749 [7748] NatUpperMap.leaf))) 7751 [7750]
  (NatUpperMap.node (NatUpperMap.node NatUpperMap.leaf 7753 [7752] (NatUpperMap.node
  NatUpperMap.leaf 7755 [7754] NatUpperMap.leaf)) 7757 [7756] (NatUpperMap.node
  NatUpperMap.leaf 7759 [7758] (NatUpperMap.node NatUpperMap.leaf 7761 [7760]
  NatUpperMap.leaf)))) 7763 [7762] (NatUpperMap.node (NatUpperMap.node (NatUpperMap.node
  NatUpperMap.leaf 7765 [7764] (NatUpperMap.node NatUpperMap.leaf 7767 [7766]
  NatUpperMap.leaf)) 7769 [7768] (NatUpperMap.node NatUpperMap.leaf 7771 [7770]
  (NatUpperMap.node NatUpperMap.leaf 7773 [7772] NatUpperMap.leaf))) 7775 [7774]
  (NatUpperMap.node (NatUpperMap.node NatUpperMap.leaf 7777 [7776] (NatUpperMap.node
  NatUpperMap.leaf 7779 [7778] NatUpperMap.leaf)) 7781 [7780] (NatUpperMap.node
  NatUpperMap.leaf 7783 [7782] (NatUpperMap.node NatUpperMap.leaf 7785 [7784]
  NatUpperMap.leaf)))))) 7787 [7786] (NatUpperMap.node (NatUpperMap.node (NatUpperMap.node
  (NatUpperMap.node (NatUpperMap.node NatUpperMap.leaf 7789 [7788] (NatUpperMap.node
  NatUpperMap.leaf 7791 [7790] NatUpperMap.leaf)) 7793 [7792] (NatUpperMap.node
  NatUpperMap.leaf 7795 [7794] (NatUpperMap.node NatUpperMap.leaf 7797 [7796]
  NatUpperMap.leaf))) 7799 [7798] (NatUpperMap.node (NatUpperMap.node NatUpperMap.leaf 7801
  [7800] (NatUpperMap.node NatUpperMap.leaf 7803 [7802] NatUpperMap.leaf)) 7805 [7804]
  (NatUpperMap.node NatUpperMap.leaf 7807 [7806] (NatUpperMap.node NatUpperMap.leaf 7809 [7808]
  NatUpperMap.leaf)))) 7811 [7810] (NatUpperMap.node (NatUpperMap.node (NatUpperMap.node
  NatUpperMap.leaf 7813 [7812] (NatUpperMap.node NatUpperMap.leaf 7815 [7814]
  NatUpperMap.leaf)) 7817 [7816] (NatUpperMap.node NatUpperMap.leaf 7819 [7818]
  (NatUpperMap.node NatUpperMap.leaf 7821 [7820] NatUpperMap.leaf))) 7823 [7822]
  (NatUpperMap.node (NatUpperMap.node NatUpperMap.leaf 7825 [7824] (NatUpperMap.node
  NatUpperMap.leaf 7827 [7826] NatUpperMap.leaf)) 7829 [7828] (NatUpperMap.node
  NatUpperMap.leaf 7830 [72, 817] (NatUpperMap.node NatUpperMap.leaf 7831 [84, 776]
  NatUpperMap.leaf))))) 7832 [87, 778] (NatUpperMap.node (NatUpperMap.node (NatUpperMap.node
  (NatUpperMap.node NatUpperMap.leaf 7833 [89, 778] (NatUpperMap.node NatUpperMap.leaf 7834
  [65, 702] NatUpperMap.leaf)) 7835 [7776] (NatUpperMap.node NatUpperMap.leaf 7841 [7840]
  (NatUpperMap.node NatUpperMap.leaf 7843 [7842] NatUpperMap.leaf))) 7845 [7844]
  (NatUpperMap.node (NatUpperMap.node NatUpperMap.leaf 7847 [7846] (NatUpperMap.node
  NatUpperMap.leaf 7849 [7848] NatUpperMap.leaf)) 7851 [7850] (NatUpperMap.node
  NatUpperMap.leaf 7853 [7852] (NatUpperMap.node NatUpperMap.leaf 7855 [7854]
  NatUpperMap.leaf)))) 7857 [7856] (NatUpperMap.node (NatUpperMap.node (NatUpperMap.node
  NatUpperMap.leaf 7859 [7858] (NatUpperMap.node NatUpperMap.leaf 7861 [7860]
  NatUpperMap.leaf)) 7863 [7862] (NatUpperMap.node NatUpperMap.leaf 7865 [7864]
  (NatUpperMap.node NatUpperMap.leaf 7867 [7866] NatUpperMap.leaf))) 7869 [7868]
  (NatUpperMap.node (NatUpperMap.node NatUpperMap.leaf 7871 [7870] (NatUpperMap.node
  NatUpperMap.leaf 7873 [7872] NatUpperMap.leaf)) 7875 [7874] (NatUpperMap.node
  NatUpperMap.leaf 7877 [7876] (NatUpperMap.node NatUpperMap.leaf 7879 [7878]
  NatUpperMap.leaf))))))) 7881 [7880] (NatUpperMap.node (NatUpperMap.node (NatUpperMap.node
  (NatUpperMap.node (NatUpperMap.node (NatUpperMap.node NatUpperMap.leaf 7883 [7882]
  (NatUpperMap.node NatUpperMap.leaf 7885 [7884] NatUpperMap.leaf)) 7887 [7886]
  (NatUpperMap.node NatUpperMap.leaf 7889 [7888] (NatUpperMap.node NatUpperMap.leaf 7891 [7890]
  NatUpperMap.leaf))) 7893 [7892] (NatUpperMap.node (NatUpperMap.node NatUpperMap.leaf 7895
  [7894] (NatUpperMap.node NatUpperMap.leaf 7897 [7896] NatUpperMap.leaf)) 7899 [7898]
  (NatUpperMap.node NatUpperMap.leaf 7901 [7900] (NatUpperMap.node NatUpperMap.leaf 7903 [7902]
  NatUpperMap.leaf)))) 7905 [7904] (NatUpperMap.node (NatUpperMap.node (NatUpperMap.node
  NatUpperMap.leaf 7907 [7906] (NatUpperMap.node NatUpperMap.leaf 7909 [7908]
  NatUpperMap.leaf)) 7911 [7910] (NatUpperMap.node NatUpperMap.leaf 7913 [7912]
  (NatUpperMap.node NatUpperMap.leaf 7915 [7914] NatUpperMap.leaf))) 7917 [7916]
  (NatUpperMap.node (NatUpperMap.node NatUpperMap.leaf 7919 [7918] (NatUpperMap.node
  NatUpperMap.leaf 7921 [7920] NatUpperMap.leaf)) 7923 [7922] (NatUpperMap.node
  NatUpperMap.leaf 7925 [7924] (NatUpperMap.node NatUpperMap.leaf 7927 [7926]
  NatUpperMap.leaf))))) 7929 [7928] (NatUpperMap.node (NatUpperMap.node (NatUpperMap.node
  (NatUpperMap.node NatUpperMap.leaf 7931 [7930] (NatUpperMap.node NatUpperMap.leaf 7933 [7932]
  NatUpperMap.leaf)) 7935 [7934] (NatUpperMap.node NatUpperMap.leaf 7936 [7944]
  (NatUpperMap.node NatUpperMap.leaf 7937 [7945] NatUpperMap.leaf))) 7938 [7946]
  (NatUpperMap.node (NatUpperMap.node NatUpperMap.leaf 7939 [7947] (NatUpperMap.node
  NatUpperMap.leaf 7940 [7948] NatUpperMap.leaf)) 7941 [7949] (NatUpperMap.node
  NatUpperMap.leaf 7942 [7950] (NatUpperMap.node NatUpperMap.leaf 7943 [7951]
  NatUpperMap.leaf)))) 7952 [7960] (NatUpperMap.node (NatUpperMap.node (NatUpperMap.node
  NatUpperMap.leaf 7953 [7961] (NatUpperMap.node NatUpperMap.leaf 7954 [7962]
  NatUpperMap.leaf)) 7955 [7963] (NatUpperMap.node NatUpperMap.leaf 7956 [7964]
  (NatUpperMap.node NatUpperMap.leaf 7957 [7965] NatUpperMap.leaf))) 7968 [7976]
  (NatUpperMap.node (NatUpperMap.node NatUpperMap.leaf 7969 [7977] (NatUpperMap.node
  NatUpperMap.leaf 7970 [7978] NatUpperMap.leaf)) 7971 [7979] (NatUpperMap.node
  NatUpperMap.leaf 7972 [7980] (NatUpperMap.node NatUpperMap.leaf 7973 [7981]
  NatUpperMap.leaf)))))) 7974 [7982] (NatUpperMap.node (NatUpperMap.node (NatUpperMap.node
  (NatUpperMap.node (NatUpperMap.node NatUpperMap.leaf 7975 [7983] (NatUpperMap.node
  NatUpperMap.leaf 7984 [7992] NatUpperMap.leaf)) 7985 [7993] (NatUpperMap.node
  NatUpperMap.leaf 7986 [7994] (NatUpperMap.node NatUpperMap.leaf 7987 [7995]
  NatUpperMap.leaf))) 7988 [7996] (NatUpperMap.node (NatUpperMap.node NatUpperMap.leaf 7989
  [7997] (NatUpperMap.node NatUpperMap.leaf 7990 [7998] NatUpperMap.leaf)) 7991 [7999]
  (NatUpperMap.node NatUpperMap.leaf 8000 [8008] (NatUpperMap.node NatUpperMap.leaf 8001 [8009]
  NatUpperMap.leaf)))) 8002 [8010] (NatUpperMap.node (NatUpperMap.node (NatUpperMap.node
  NatUpperMap.leaf 8003 [8011] (NatUpperMap.node NatUpperMap.leaf 8004 [8012]
  NatUpperMap.leaf)) 8005 [8013] (NatUpperMap.node NatUpperMap.leaf 8016 [933, 787]
  (NatUpperMap.node NatUpperMap.leaf 8017 [8025] NatUpperMap.leaf))) 8018 [933, 787, 768]
  (NatUpperMap.node (NatUpperMap.node NatUpperMap.leaf 8019 [8027] (NatUpperMap.node
  NatUpperMap.leaf 8020 [933, 787, 769] NatUpperMap.leaf)) 8021 [8029] (NatUpperMap.node
  NatUpperMap.leaf 8022 [933, 787, 834] (NatUpperMap.node NatUpperMap.leaf 8023 [8031]
  NatUpperMap.leaf))))) 8032 [8040] (NatUpperMap.node (NatUpperMap.node (NatUpperMap.node
  (NatUpperMap.node NatUpperMap.leaf 8033 [8041] (NatUpperMap.node NatUpperMap.leaf 8034 [8042]
  NatUpperMap.leaf)) 8035 [8043] (NatUpperMap.node NatUpperMap.leaf 8036 [8044]
  (NatUpperMap.node NatUpperMap.leaf 8037 [8045] NatUpperMap.leaf))) 8038 [8046]
  (NatUpperMap.node (NatUpperMap.node NatUpperMap.leaf 8039 [8047] (NatUpperMap.node
  NatUpperMap.leaf 8048 [8122] NatUpperMap.leaf)) 8049 [8123] (NatUpperMap.node
  NatUpperMap.leaf 8050 [8136] (NatUpperMap.node NatUpperMap.leaf 8051 [8137]
  NatUpperMap.leaf)))) 8052 [8138] (NatUpperMap.node (NatUpperMap.node (NatUpperMap.node
  NatUpperMap.leaf 8053 [8139] (NatUpperMap.node NatUpperMap.leaf 8054 [8154]
  NatUpperMap.leaf)) 8055 [8155] (NatUpperMap.node NatUpperMap.leaf 8056 [8184]
  (NatUpperMap.node NatUpperMap.leaf 8057 [8185] NatUpperMap.leaf))) 8058 [8170]
  (NatUpperMap.node (NatUpperMap.node NatUpperMap.leaf 8059 [8171] (NatUpperMap.node
  NatUpperMap.leaf 8060 [8186] NatUpperMap.leaf)) 8061 [8187] (NatUpperMap.node
  NatUpperMap.leaf 8064 [7944, 921] (NatUpperMap.node NatUpperMap.leaf 8065 [7945, 921]
  NatUpperMap.leaf)))))))))) 8066 [7946, 921] (NatUpperMap.node (NatUpperMap.node
  (NatUpperMap.node (NatUpperMap.node (NatUpperMap.node (NatUpperMap.node (NatUpperMap.node
  (NatUpperMap.node (NatUpperMap.node NatUpperMap.leaf 8067 [7947, 921] NatUpperMap.leaf) 8068
  [7948, 921] (NatUpperMap.node NatUpperMap.leaf 8069 [7949, 921] (NatUpperMap.node
  NatUpperMap.leaf 8070 [7950, 921] NatUpperMap.leaf))) 8071 [7951, 921] (NatUpperMap.node
  (NatUpperMap.node NatUpperMap.leaf 8072 [7944, 921] (NatUpperMap.node NatUpperMap.leaf 8073
  [7945, 921] NatUpperMap.leaf)) 8074 [7946, 921] (NatUpperMap.node NatUpperMap.leaf 8075
  [7947, 921] (NatUpperMap.node NatUpperMap.leaf 8076 [7948, 921] NatUpperMap.leaf)))) 8077
  [7949, 921] (NatUpperMap.node (NatUpperMap.node (NatUpperMap.node NatUpperMap.leaf 8078
  [7950, 921] (NatUpperMap.node NatUpperMap.leaf 8079 [7951, 921] NatUpperMap.leaf)) 8080
  [7976, 921] (NatUpperMap.node NatUpperMap.leaf 8081 [7977, 921] (NatUpperMap.node
  NatUpperMap.leaf 8082 [7978, 921] NatUpperMap.leaf))) 8083 [7979, 921] (NatUpperMap.node
  (NatUpperMap.node NatUpperMap.leaf 8084 [7980, 921] (NatUpperMap.node NatUpperMap.leaf 8085
  [7981, 921] NatUpperMap.leaf)) 8086 [7982, 921] (NatUpperMap.node NatUpperMap.leaf 8087
  [7983, 921] (NatUpperMap.node NatUpperMap.leaf 8088 [7976, 921] NatUpperMap.leaf))))) 8089
  [7977, 921] (NatUpperMap.node (NatUpperMap.node (NatUpperMap.node (NatUpperMap.node
  NatUpperMap.leaf 8090 [7978, 921] (NatUpperMap.node NatUpperMap.leaf 8091 [7979, 921]
  NatUpperMap.leaf)) 8092 [7980, 921] (NatUpperMap.node NatUpperMap.leaf 8093 [7981, 921]
  (NatUpperMap.node NatUpperMap.leaf 8094 [7982, 921] NatUpperMap.leaf))) 8095 [7983, 921]
  (NatUpperMap.node (NatUpperMap.node NatUpperMap.leaf 8096 [8040, 921] (NatUpperMap.node
  NatUpperMap.leaf 8097 [8041, 921] NatUpperMap.leaf)) 8098 [8042, 921] (NatUpperMap.node
  NatUpperMap.leaf 8099 [8043, 921] (NatUpperMap.node NatUpperMap.leaf 8100 [8044, 921]
  NatUpperMap.leaf)))) 8101 [8045, 921] (NatUpperMap.node (NatUpperMap.node (NatUpperMap.node
  NatUpperMap.leaf 8102 [8046, 921] (NatUpperMap.node NatUpperMap.leaf 8103 [8047, 921]
  NatUpperMap.leaf)) 8104 [8040, 921] (NatUpperMap.node NatUpperMap.leaf 8105 [8041, 921]
  (NatUpperMap.node NatUpperMap.leaf 8106 [8042, 921] NatUpperMap.leaf))) 8107 [8043, 921]
  (NatUpperMap.node (NatUpperMap.node NatUpperMap.leaf 8108 [8044, 921] (NatUpperMap.node
  NatUpperMap.leaf 8109 [8045, 921] NatUpperMap.leaf)) 8110 [8046, 921] (NatUpperMap.node
  NatUpperMap.leaf 8111 [8047, 921] (NatUpperMap.node NatUpperMap.leaf 8112 [8120]
  NatUpperMap.leaf)))))) 8113 [8121] (NatUpperMap.node (NatUpperMap.node (NatUpperMap.node
  (NatUpperMap.node (NatUpperMap.node NatUpperMap.leaf 8114 [8122, 921] (NatUpperMap.node
  NatUpperMap.leaf 8115 [913, 921] NatUpperMap.leaf)) 8116 [902, 921] (NatUpperMap.node
  NatUpperMap.leaf 8118 [913, 834] (NatUpperMap.node NatUpperMap.leaf 8119 [913, 834, 921]
  NatUpperMap.leaf))) 8124 [913, 921] (NatUpperMap.node (NatUpperMap.node NatUpperMap.leaf 8126
  [921] (NatUpperMap.node NatUpperMap.leaf 8130 [8138, 921] NatUpperMap.leaf)) 8131 [919, 921]
  (NatUpperMap.node NatUpperMap.leaf 8132 [905, 921] (NatUpperMap.node NatUpperMap.leaf 8134
  [919, 834] NatUpperMap.leaf)))) 8135 [919, 834, 921] (NatUpperMap.node (NatUpperMap.node
  (NatUpperMap.node NatUpperMap.leaf 8140 [919, 921] (NatUpperMap.node NatUpperMap.leaf 8144
  [8152] NatUpperMap.leaf)) 8145 [8153] (NatUpperMap.node NatUpperMap.leaf 8146 [921, 776, 768]
  (NatUpperMap.node NatUpperMap.leaf 8147 [921, 776, 769] NatUpperMap.leaf))) 8150 [921, 834]
  (NatUpperMap.node (NatUpperMap.node NatUpperMap.leaf 8151 [921, 776, 834] (NatUpperMap.node
  NatUpperMap.leaf 8160 [8168] NatUpperMap.leaf)) 8161 [8169] (NatUpperMap.node
  NatUpperMap.leaf 8162 [933, 776, 768] (NatUpperMap.node NatUpperMap.leaf 8163 [933, 776, 769]
  NatUpperMap.leaf))))) 8164 [929, 787] (NatUpperMap.node (NatUpperMap.node (NatUpperMap.node
  (NatUpperMap.node NatUpperMap.leaf 8165 [8172] (NatUpperMap.node NatUpperMap.leaf 8166 [933,
  834] NatUpperMap.leaf)) 8167 [933, 776, 834] (NatUpperMap.node NatUpperMap.leaf 8178 [8186,
  921] (NatUpperMap.node NatUpperMap.leaf 8179 [937, 921] NatUpperMap.leaf))) 8180 [911, 921]
  (NatUpperMap.node (NatUpperMap.node NatUpperMap.leaf 8182 [937, 834] (NatUpperMap.node
  NatUpperMap.leaf 8183 [937, 834, 921] NatUpperMap.leaf)) 8188 [937, 921] (NatUpperMap.node
  NatUpperMap.leaf 8526 [8498] (NatUpperMap.node NatUpperMap.leaf 8560 [8544]
  NatUpperMap.leaf)))) 8561 [8545] (NatUpperMap.node (NatUpperMap.node (NatUpperMap.node
  NatUpperMap.leaf 8562 [8546] (NatUpperMap.node NatUpperMap.leaf 8563 [8547]
  NatUpperMap.leaf)) 8564 [8548] (NatUpperMap.node NatUpperMap.leaf 8565 [8549]
  (NatUpperMap.node NatUpperMap.leaf 8566 [8550] NatUpperMap.leaf))) 8567 [8551]
  (NatUpperMap.node (NatUpperMap.node NatUpperMap.leaf 8568 [8552] (NatUpperMap.node
  NatUpperMap.leaf 8569 [8553] NatUpperMap.leaf)) 8570 [8554] (NatUpperMap.node
  NatUpperMap.leaf 8571 [8555] (NatUpperMap.node NatUpperMap.leaf 8572 [8556]
  NatUpperMap.leaf))))))) 8573 [8557] (NatUpperMap.node (NatUpperMap.node (NatUpperMap.node
  (NatUpperMap.node (NatUpperMap.node (NatUpperMap.node NatUpperMap.leaf 8574 [8558]
  NatUpperMap.leaf) 8575 [8559] (NatUpperMap.node NatUpperMap.leaf 8580 [8579]
  (NatUpperMap.node NatUpperMap.leaf 9424 [9398] NatUpperMap.leaf))) 9425 [9399]
  (NatUpperMap.node (NatUpperMap.node NatUpperMap.leaf 9426 [9400] (NatUpperMap.node
  NatUpperMap.leaf 9427 [9401] NatUpperMap.leaf)) 9428 [9402] (NatUpperMap.node
  NatUpperMap.leaf 9429 [9403] (NatUpperMap.node NatUpperMap.leaf 9430 [9404]
  NatUpperMap.leaf)))) 9431 [9405] (NatUpperMap.node (NatUpperMap.node (NatUpperMap.node
  NatUpperMap.leaf 9432 [9406] (NatUpperMap.node NatUpperMap.leaf 9433 [9407]
  NatUpperMap.leaf)) 9434 [9408] (NatUpperMap.node NatUpperMap.leaf 9435 [9409]
  (NatUpperMap.node NatUpperMap.leaf 9436 [9410] NatUpperMap.leaf))) 9437 [9411]
  (NatUpperMap.node (NatUpperMap.node NatUpperMap.leaf 9438 [9412] (NatUpperMap.node
  NatUpperMap.leaf 9439 [9413] NatUpperMap.leaf)) 9440 [9414] (NatUpperMap.node
  NatUpperMap.leaf 9441 [9415] (NatUpperMap.node NatUpperMap.leaf 9442 [9416]
  NatUpperMap.leaf))))) 9443 [9417] (NatUpperMap.node (NatUpperMap.node (NatUpperMap.node
  (NatUpperMap.node NatUpperMap.leaf 9444 [9418] (NatUpperMap.node NatUpperMap.leaf 9445 [9419]
  NatUpperMap.leaf)) 9446 [9420] (NatUpperMap.node NatUpperMap.leaf 9447 [9421]
  (NatUpperMap.node NatUpperMap.leaf 9448 [9422] NatUpperMap.leaf))) 9449 [9423]
  (NatUpperMap.node (NatUpperMap.node NatUpperMap.leaf 11312 [11264] (NatUpperMap.node
  NatUpperMap.leaf 11313 [11265] NatUpperMap.leaf)) 11314 [11266] (NatUpperMap.node
  NatUpperMap.leaf 11315 [11267] (NatUpperMap.node NatUpperMap.leaf 11316 [11268]
  NatUpperMap.leaf)))) 11317 [11269] (NatUpperMap.node (NatUpperMap.node (NatUpperMap.node
  NatUpperMap.leaf 11318 [11270] (NatUpperMap.node NatUpperMap.leaf 11319 [11271]
  NatUpperMap.leaf)) 11320 [11272] (NatUpperMap.node NatUpperMap.leaf 11321 [11273]
  (NatUpperMap.node NatUpperMap.leaf 11322 [11274] NatUpperMap.leaf))) 11323 [11275]
  (NatUpperMap.node (NatUpperMap.node NatUpperMap.leaf 11324 [11276] (NatUpperMap.node
  NatUpperMap.leaf 11325 [11277] NatUpperMap.leaf)) 11326 [11278] (NatUpperMap.node
  NatUpperMap.leaf 11327 [11279] (NatUpperMap.node NatUpperMap.leaf 11328 [11280]
  NatUpperMap.leaf)))))) 11329 [11281] (NatUpperMap.node (NatUpperMap.node (NatUpperMap.node
  (NatUpperMap.node (NatUpperMap.node NatUpperMap.leaf 11330 [11282] (NatUpperMap.node
  NatUpperMap.leaf 11331 [11283] NatUpperMap.leaf)) 11332 [11284] (NatUpperMap.node
  NatUpperMap.leaf 11333 [11285] (NatUpperMap.node NatUpperMap.leaf 11334 [11286]
  NatUpperMap.leaf))) 11335 [11287] (NatUpperMap.node (NatUpperMap.node NatUpperMap.leaf 11336
  [11288] (NatUpperMap.node NatUpperMap.leaf 11337 [11289] NatUpperMap.leaf)) 11338 [11290]
  (NatUpperMap.node NatUpperMap.leaf 11339 [11291] (NatUpperMap.node NatUpperMap.leaf 11340
  [11292] NatUpperMap.leaf)))) 11341 [11293] (NatUpperMap.node (NatUpperMap.node
  (NatUpperMap.node NatUpperMap.leaf 11342 [11294] (NatUpperMap.node NatUpperMap.leaf 11343
  [11295] NatUpperMap.leaf)) 11344 [11296] (NatUpperMap.node NatUpperMap.leaf 11345 [11297]
  (NatUpperMap.node NatUpperMap.leaf 11346 [11298] NatUpperMap.leaf))) 11347 [11299]
  (NatUpperMap.node (NatUpperMap.node NatUpperMap.leaf 11348 [11300] (NatUpperMap.node
  NatUpperMap.leaf 11349 [11301] NatUpperMap.leaf)) 11350 [11302] (NatUpperMap.node
  NatUpperMap.leaf 11351 [11303] (NatUpperMap.node NatUpperMap.leaf 11352 [11304]
  NatUpperMap.leaf))))) 11353 [11305] (NatUpperMap.node (NatUpperMap.node (NatUpperMap.node
  (NatUpperMap.node NatUpperMap.leaf 11354 [11306] (NatUpperMap.node NatUpperMap.leaf 11355
  [11307] NatUpperMap.leaf)) 11356 [11308] (NatUpperMap.node NatUpperMap.leaf 11357 [11309]
  (NatUpperMap.node NatUpperMap.leaf 11358 [11310] NatUpperMap.leaf))) 11359 [11311]
  (NatUpperMap.node (NatUpperMap.node NatUpperMap.leaf 11361 [11360] (NatUpperMap.node
  NatUpperMap.leaf 11365 [570] NatUpperMap.leaf)) 11366 [574] (NatUpperMap.node
  NatUpperMap.leaf 11368 [11367] (NatUpperMap.node NatUpperMap.leaf 11370 [11369]
  NatUpperMap.leaf)))) 11372 [11371] (NatUpperMap.node (NatUpperMap.node (NatUpperMap.node
  NatUpperMap.leaf 11379 [11378] (NatUpperMap.node NatUpperMap.leaf 11382 [11381]
  NatUpperMap.leaf)) 11393 [11392] (NatUpperMap.node NatUpperMap.leaf 11395 [11394]
  (NatUpperMap.node NatUpperMap.leaf 11397 [11396] NatUpperMap.leaf))) 11399 [11398]
  (NatUpperMap.node (NatUpperMap.node NatUpperMap.leaf 11401 [11400] (NatUpperMap.node
  NatUpperMap.leaf 11403 [11402] NatUpperMap.leaf)) 11405 [11404] (NatUpperMap.node
  NatUpperMap.leaf 11407 [11406] (NatUpperMap.node NatUpperMap.leaf 11409 [11408]
  NatUpperMap.leaf)))))))) 11411 [11410] (NatUpperMap.node (NatUpperMap.node (NatUpperMap.node
  (NatUpperMap.node (NatUpperMap.node (NatUpperMap.node (NatUpperMap.node NatUpperMap.leaf
  11413 [11412] NatUpperMap.leaf) 11415 [11414] (NatUpperMap.node NatUpperMap.leaf 11417
  [11416] (NatUpperMap.node NatUpperMap.leaf 11419 [11418] NatUpperMap.leaf))) 11421 [11420]
  (NatUpperMap.node (NatUpperMap.node NatUpperMap.leaf 11423 [11422] (NatUpperMap.node
  NatUpperMap.leaf 11425 [11424] NatUpperMap.leaf)) 11427 [11426] (NatUpperMap.node
  NatUpperMap.leaf 11429 [11428] (NatUpperMap.node NatUpperMap.leaf 11431 [11430]
  NatUpperMap.leaf)))) 11433 [11432] (NatUpperMap.node (NatUpperMap.node (NatUpperMap.node
  NatUpperMap.leaf 11435 [11434] (NatUpperMap.node NatUpperMap.leaf 11437 [11436]
  NatUpperMap.leaf)) 11439 [11438] (NatUpperMap.node NatUpperMap.leaf 11441 [11440]
  (NatUpperMap.node NatUpperMap.leaf 11443 [11442] NatUpperMap.leaf))) 11445 [11444]
  (NatUpperMap.node (NatUpperMap.node NatUpperMap.leaf 11447 [11446] (NatUpperMap.node
  NatUpperMap.leaf 11449 [11448] NatUpperMap.leaf)) 11451 [11450] (NatUpperMap.node
  NatUpperMap.leaf 11453 [11452] (NatUpperMap.node NatUpperMap.leaf 11455 [11454]
  NatUpperMap.leaf))))) 11457 [11456] (NatUpperMap.node (NatUpperMap.node (NatUpperMap.node
  (NatUpperMap.node NatUpperMap.leaf 11459 [11458] (NatUpperMap.node NatUpperMap.leaf 11461
  [11460] NatUpperMap.leaf)) 11463 [11462] (NatUpperMap.node NatUpperMap.leaf 11465 [11464]
  (NatUpperMap.node NatUpperMap.leaf 11467 [11466] NatUpperMap.leaf))) 11469 [11468]
  (NatUpperMap.node (NatUpperMap.node NatUpperMap.leaf 11471 [11470] (NatUpperMap.node
  NatUpperMap.leaf 11473 [11472] NatUpperMap.leaf)) 11475 [11474] (NatUpperMap.node
  NatUpperMap.leaf 11477 [11476] (NatUpperMap.node NatUpperMap.leaf 11479 [11478]
  NatUpperMap.leaf)))) 11481 [11480] (NatUpperMap.node (NatUpperMap.node (NatUpperMap.node
  NatUpperMap.leaf 11483 [11482] (NatUpperMap.node NatUpperMap.leaf 11485 [11484]
  NatUpperMap.leaf)) 11487 [11486] (NatUpperMap.node NatUpperMap.leaf 11489 [11488]
  (NatUpperMap.node NatUpperMap.leaf 11491 [11490] NatUpperMap.leaf))) 11500 [11499]
  (NatUpperMap.node (NatUpperMap.node NatUpperMap.leaf 11502 [11501] (NatUpperMap.node
  NatUpperMap.leaf 11507 [11506] NatUpperMap.leaf)) 11520 [4256] (NatUpperMap.node
  NatUpperMap.leaf 11521 [4257] (NatUpperMap.node NatUpperMap.leaf 11522 [4258]
  NatUpperMap.leaf)))))) 11523 [4259] (NatUpperMap.node (NatUpperMap.node (NatUpperMap.node
  (NatUpperMap.node (NatUpperMap.node NatUpperMap.leaf 11524 [4260] (NatUpperMap.node
  NatUpperMap.leaf 11525 [4261] NatUpperMap.leaf)) 11526 [4262] (NatUpperMap.node
  NatUpperMap.leaf 11527 [4263] (NatUpperMap.node NatUpperMap.leaf 11528 [4264]
  NatUpperMap.leaf))) 11529 [4265] (NatUpperMap.node (NatUpperMap.node NatUpperMap.leaf 11530
  [4266] (NatUpperMap.node NatUpperMap.leaf 11531 [4267] NatUpperMap.leaf)) 11532 [4268]
  (NatUpperMap.node NatUpperMap.leaf 11533 [4269] (NatUpperMap.node NatUpperMap.leaf 11534
  [4270] NatUpperMap.leaf)))) 11535 [4271] (NatUpperMap.node (NatUpperMap.node
  (NatUpperMap.node NatUpperMap.leaf 11536 [4272] (NatUpperMap.node NatUpperMap.leaf 11537
  [4273] NatUpperMap.leaf)) 11538 [4274] (NatUpperMap.node NatUpperMap.leaf 11539 [4275]
  (NatUpperMap.node NatUpperMap.leaf 11540 [4276] NatUpperMap.leaf))) 11541 [4277]
  (NatUpperMap.node (NatUpperMap.node NatUpperMap.leaf 11542 [4278] (NatUpperMap.node
  NatUpperMap.leaf 11543 [4279] NatUpperMap.leaf)) 11544 [4280] (NatUpperMap.node
  NatUpperMap.leaf 11545 [4281] (NatUpperMap.node NatUpperMap.leaf 11546 [4282]
  NatUpperMap.leaf))))) 11547 [4283] (NatUpperMap.node (NatUpperMap.node (NatUpperMap.node
  (NatUpperMap.node NatUpperMap.leaf 11548 [4284] (NatUpperMap.node NatUpperMap.leaf 11549
  [4285] NatUpperMap.leaf)) 11550 [4286] (NatUpperMap.node NatUpperMap.leaf 11551 [4287]
  (NatUpperMap.node NatUpperMap.leaf 11552 [4288] NatUpperMap.leaf))) 11553 [4289]
  (NatUpperMap.node (NatUpperMap.node NatUpperMap.leaf 11554 [4290] (NatUpperMap.node
  NatUpperMap.leaf 11555 [4291] NatUpperMap.leaf)) 11556 [4292] (NatUpperMap.node
  NatUpperMap.leaf 11557 [4293] (NatUpperMap.node NatUpperMap.leaf 11559 [4295]
  NatUpperMap.leaf)))) 11565 [4301] (NatUpperMap.node (NatUpperMap.node (NatUpperMap.node
  NatUpperMap.leaf 42561 [42560] (NatUpperMap.node NatUpperMap.leaf 42563 [42562]
  NatUpperMap.leaf)) 42565 [42564] (NatUpperMap.node NatUpperMap.leaf 42567 [42566]
  (NatUpperMap.node NatUpperMap.leaf 42569 [42568] NatUpperMap.leaf))) 42571 [42570]
  (NatUpperMap.node (NatUpperMap.node NatUpperMap.leaf 42573 [42572] (NatUpperMap.node
  NatUpperMap.leaf 42575 [42574] NatUpperMap.leaf)) 42577 [42576] (NatUpperMap.node
  NatUpperMap.leaf 42579 [42578] (NatUpperMap.node NatUpperMap.leaf 42581 [42580]
  NatUpperMap.leaf))))))) 42583 [42582] (NatUpperMap.node (NatUpperMap.node (NatUpperMap.node
  (NatUpperMap.node (NatUpperMap.node (NatUpperMap.node NatUpperMap.leaf 42585 [42584]
  (NatUpperMap.node NatUpperMap.leaf 42587 [42586] NatUpperMap.leaf)) 42589 [42588]
  (NatUpperMap.node NatUpperMap.leaf 42591 [42590] (NatUpperMap.node NatUpperMap.leaf 42593
  [42592] NatUpperMap.leaf))) 42595 [42594] (NatUpperMap.node (NatUpperMap.node
  NatUpperMap.leaf 42597 [42596] (NatUpperMap.node NatUpperMap.leaf 42599 [42598]
  NatUpperMap.leaf)) 42601 [42600] (NatUpperMap.node NatUpperMap.leaf 42603 [42602]
  (NatUpperMap.node NatUpperMap.leaf 42605 [42604] NatUpperMap.leaf)))) 42625 [42624]
  (NatUpperMap.node (NatUpperMap.node (NatUpperMap.node NatUpperMap.leaf 42627 [42626]
  (NatUpperMap.node NatUpperMap.leaf 42629 [42628] NatUpperMap.leaf)) 42631 [42630]
  (NatUpperMap.node NatUpperMap.leaf 42633 [42632] (NatUpperMap.node NatUpperMap.leaf 42635
  [42634] NatUpperMap.leaf))) 42637 [42636] (NatUpperMap.node (NatUpperMap.node
  NatUpperMap.leaf 42639 [42638] (NatUpperMap.node NatUpperMap.leaf 42641 [42640]
  NatUpperMap.leaf)) 42643 [42642] (NatUpperMap.node NatUpperMap.leaf 42645 [42644]
  (NatUpperMap.node NatUpperMap.leaf 42647 [42646] NatUpperMap.leaf))))) 42649 [42648]
  (NatUpperMap.node (NatUpperMap.node (NatUpperMap.node (NatUpperMap.node NatUpperMap.leaf
  42651 [42650] (NatUpperMap.node NatUpperMap.leaf 42787 [42786] NatUpperMap.leaf)) 42789
  [42788] (NatUpperMap.node NatUpperMap.leaf 42791 [42790] (NatUpperMap.node NatUpperMap.leaf
  42793 [42792] NatUpperMap.leaf))) 42795 [42794] (NatUpperMap.node (NatUpperMap.node
  NatUpperMap.leaf 42797 [42796] (NatUpperMap.node NatUpperMap.leaf 42799 [42798]
  NatUpperMap.leaf)) 42803 [42802] (NatUpperMap.node NatUpperMap.leaf 42805 [42804]
  (NatUpperMap.node NatUpperMap.leaf 42807 [42806] NatUpperMap.leaf)))) 42809 [42808]
  (NatUpperMap.node (NatUpperMap.node (NatUpperMap.node NatUpperMap.leaf 42811 [42810]
  (NatUpperMap.node NatUpperMap.leaf 42813 [42812] NatUpperMap.leaf)) 42815 [42814]
  (NatUpperMap.node NatUpperMap.leaf 42817 [42816] (NatUpperMap.node NatUpperMap.leaf 42819
  [42818] NatUpperMap.leaf))) 42821 [42820] (NatUpperMap.node (NatUpperMap.node
  NatUpperMap.leaf 42823 [42822] (NatUpperMap.node NatUpperMap.leaf 42825 [42824]
  NatUpperMap.leaf)) 42827 [42826] (NatUpperMap.node NatUpperMap.leaf 42829 [42828]
  (NatUpperMap.node NatUpperMap.leaf 42831 [42830] NatUpperMap.leaf)))))) 42833 [42832]
  (NatUpperMap.node (NatUpperMap.node (NatUpperMap.node (NatUpperMap.node (NatUpperMap.node
  NatUpperMap.leaf 42835 [42834] (NatUpperMap.node NatUpperMap.leaf 42837 [42836]
  NatUpperMap.leaf)) 42839 [42838] (NatUpperMap.node NatUpperMap.leaf 42841 [42840]
  (NatUpperMap.node NatUpperMap.leaf 42843 [42842] NatUpperMap.leaf))) 42845 [42844]
  (NatUpperMap.node (NatUpperMap.node NatUpperMap.leaf 42847 [42846] (NatUpperMap.node
  NatUpperMap.leaf 42849 [42848] NatUpperMap.leaf)) 42851 [42850] (NatUpperMap.node
  NatUpperMap.leaf 42853 [42852] (NatUpperMap.node NatUpperMap.leaf 42855 [42854]
  NatUpperMap.leaf)))) 42857 [42856] (NatUpperMap.node (NatUpperMap.node (NatUpperMap.node
  NatUpperMap.leaf 42859 [42858] (NatUpperMap.node NatUpperMap.leaf 42861 [42860]
  NatUpperMap.leaf)) 42863 [42862] (NatUpperMap.node NatUpperMap.leaf 42874 [42873]
  (NatUpperMap.node NatUpperMap.leaf 42876 [42875] NatUpperMap.leaf))) 42879 [42878]
  (NatUpperMap.node (NatUpperMap.node NatUpperMap.leaf 42881 [42880] (NatUpperMap.node
  NatUpperMap.leaf 42883 [42882] NatUpperMap.leaf)) 42885 [42884] (NatUpperMap.node
  NatUpperMap.leaf 42887 [42886] (NatUpperMap.node NatUpperMap.leaf 42892 [42891]
  NatUpperMap.leaf))))) 42897 [42896] (NatUpperMap.node (NatUpperMap.node (NatUpperMap.node
  (NatUpperMap.node NatUpperMap.leaf 42899 [42898] (NatUpperMap.node NatUpperMap.leaf 42900
  [42948] NatUpperMap.leaf)) 42903 [42902] (NatUpperMap.node NatUpperMap.leaf 42905 [42904]
  (NatUpperMap.node NatUpperMap.leaf 42907 [42906] NatUpperMap.leaf))) 42909 [42908]
  (NatUpperMap.node (NatUpperMap.node NatUpperMap.leaf 42911 [42910] (NatUpperMap.node
  NatUpperMap.leaf 42913 [42912] NatUpperMap.leaf)) 42915 [42914] (NatUpperMap.node
  NatUpperMap.leaf 42917 [42916] (NatUpperMap.node NatUpperMap.leaf 42919 [42918]
  NatUpperMap.leaf)))) 42921 [42920] (NatUpperMap.node (NatUpperMap.node (NatUpperMap.node
  NatUpperMap.leaf 42933 [42932] (NatUpperMap.node NatUpperMap.leaf 42935 [42934]
  NatUpperMap.leaf)) 42937 [42936] (NatUpperMap.node NatUpperMap.leaf 42939 [42938]
  (NatUpperMap.node NatUpperMap.leaf 42941 [42940] NatUpperMap.leaf))) 42943 [42942]
  (NatUpperMap.node (NatUpperMap.node NatUpperMap.leaf 42945 [42944] (NatUpperMap.node
  NatUpperMap.leaf 42947 [42946] NatUpperMap.leaf)) 42952 [42951] (NatUpperMap.node
  NatUpperMap.leaf 42954 [42953] (NatUpperMap.node NatUpperMap.leaf 42961 [42960]
  NatUpperMap.leaf))))))))) 42967 [42966] (NatUpperMap.node (NatUpperMap.node (NatUpperMap.node
  (NatUpperMap.node (NatUpperMap.node (NatUpperMap.node (NatUpperMap.node (NatUpperMap.node
  NatUpperMap.leaf 42969 [42968] NatUpperMap.leaf) 42998 [42997] (NatUpperMap.node
  NatUpperMap.leaf 43859 [42931] (NatUpperMap.node NatUpperMap.leaf 43888 [5024]
  NatUpperMap.leaf))) 43889 [5025] (NatUpperMap.node (NatUpperMap.node NatUpperMap.leaf 43890
  [5026] (NatUpperMap.node NatUpperMap.leaf 43891 [5027] NatUpperMap.leaf)) 43892 [5028]
  (NatUpperMap.node NatUpperMap.leaf 43893 [5029] (NatUpperMap.node NatUpperMap.leaf 43894
  [5030] NatUpperMap.leaf)))) 43895 [5031] (NatUpperMap.node (NatUpperMap.node
  (NatUpperMap.node NatUpperMap.leaf 43896 [5032] (NatUpperMap.node NatUpperMap.leaf 43897
  [5033] NatUpperMap.leaf)) 43898 [5034] (NatUpperMap.node NatUpperMap.leaf 43899 [5035]
  (NatUpperMap.node NatUpperMap.leaf 43900 [5036] NatUpperMap.leaf))) 43901 [5037]
  (NatUpperMap.node (NatUpperMap.node NatUpperMap.leaf 43902 [5038] (NatUpperMap.node
  NatUpperMap.leaf 43903 [5039] NatUpperMap.leaf)) 43904 [5040] (NatUpperMap.node
  NatUpperMap.leaf 43905 [5041] (NatUpperMap.node NatUpperMap.leaf 43906 [5042]
  NatUpperMap.leaf))))) 43907 [5043] (NatUpperMap.node (NatUpperMap.node (NatUpperMap.node
  (NatUpperMap.node NatUpperMap.leaf 43908 [5044] (NatUpperMap.node NatUpperMap.leaf 43909
  [5045] NatUpperMap.leaf)) 43910 [5046] (NatUpperMap.node NatUpperMap.leaf 43911 [5047]
  (NatUpperMap.node NatUpperMap.leaf 43912 [5048] NatUpperMap.leaf))) 43913 [5049]
  (NatUpperMap.node (NatUpperMap.node NatUpperMap.leaf 43914 [5050] (NatUpperMap.node
  NatUpperMap.leaf 43915 [5051] NatUpperMap.leaf)) 43916 [5052] (NatUpperMap.node
  NatUpperMap.leaf 43917 [5053] (NatUpperMap.node NatUpperMap.leaf 43918 [5054]
  NatUpperMap.leaf)))) 43919 [5055] (NatUpperMap.node (NatUpperMap.node (NatUpperMap.node
  NatUpperMap.leaf 43920 [5056] (NatUpperMap.node NatUpperMap.leaf 43921 [5057]
  NatUpperMap.leaf)) 43922 [5058] (NatUpperMap.node NatUpperMap.leaf 43923 [5059]
  (NatUpperMap.node NatUpperMap.leaf 43924 [5060] NatUpperMap.leaf))) 43925 [5061]
  (NatUpperMap.node (NatUpperMap.node NatUpperMap.leaf 43926 [5062] (NatUpperMap.node
  NatUpperMap.leaf 43927 [5063] NatUpperMap.leaf)) 43928 [5064] (NatUpperMap.node
  NatUpperMap.leaf 43929 [5065] (NatUpperMap.node NatUpperMap.leaf 43930 [5066]
  NatUpperMap.leaf)))))) 43931 [5067] (NatUpperMap.node (NatUpperMap.node (NatUpperMap.node
  (NatUpperMap.node (NatUpperMap.node NatUpperMap.leaf 43932 [5068] (NatUpperMap.node
  NatUpperMap.leaf 43933 [5069] NatUpperMap.leaf)) 43934 [5070] (NatUpperMap.node
  NatUpperMap.leaf 43935 [5071] (NatUpperMap.node NatUpperMap.leaf 43936 [5072]
  NatUpperMap.leaf))) 43937 [5073] (NatUpperMap.node (NatUpperMap.node NatUpperMap.leaf 43938
  [5074] (NatUpperMap.node NatUpperMap.leaf 43939 [5075] NatUpperMap.leaf)) 43940 [5076]
  (NatUpperMap.node NatUpperMap.leaf 43941 [5077] (NatUpperMap.node NatUpperMap.leaf 43942
  [5078] NatUpperMap.leaf)))) 43943 [5079] (NatUpperMap.node (NatUpperMap.node
  (NatUpperMap.node NatUpperMap.leaf 43944 [5080] (NatUpperMap.node NatUpperMap.leaf 43945
  [5081] NatUpperMap.leaf)) 43946 [5082] (NatUpperMap.node NatUpperMap.leaf 43947 [5083]
  (NatUpperMap.node NatUpperMap.leaf 43948 [5084] NatUpperMap.leaf))) 43949 [5085]
  (NatUpperMap.node (NatUpperMap.node NatUpperMap.leaf 43950 [5086] (NatUpperMap.node
  NatUpperMap.leaf 43951 [5087] NatUpperMap.leaf)) 43952 [5088] (NatUpperMap.node
  NatUpperMap.leaf 43953 [5089] (NatUpperMap.node NatUpperMap.leaf 43954 [5090]
  NatUpperMap.leaf))))) 43955 [5091] (NatUpperMap.node (NatUpperMap.node (NatUpperMap.node
  (NatUpperMap.node NatUpperMap.leaf 43956 [5092] (NatUpperMap.node NatUpperMap.leaf 43957
  [5093] NatUpperMap.leaf)) 43958 [5094] (NatUpperMap.node NatUpperMap.leaf 43959 [5095]
  (NatUpperMap.node NatUpperMap.leaf 43960 [5096] NatUpperMap.leaf))) 43961 [5097]
  (NatUpperMap.node (NatUpperMap.node NatUpperMap.leaf 43962 [5098] (NatUpperMap.node
  NatUpperMap.leaf 43963 [5099] NatUpperMap.leaf)) 43964 [5100] (NatUpperMap.node
  NatUpperMap.leaf 43965 [5101] (NatUpperMap.node NatUpperMap.leaf 43966 [5102]
  NatUpperMap.leaf)))) 43967 [5103] (NatUpperMap.node (NatUpperMap.node (NatUpperMap.node
  NatUpperMap.leaf 64256 [70, 70] (NatUpperMap.node NatUpperMap.leaf 64257 [70, 73]
  NatUpperMap.leaf)) 64258 [70, 76] (NatUpperMap.node NatUpperMap.leaf 64259 [70, 70, 73]
  (NatUpperMap.node NatUpperMap.leaf 64260 [70, 70, 76] NatUpperMap.leaf))) 64261 [83, 84]
  (NatUpperMap.node (NatUpperMap.node NatUpperMap.leaf 64262 [83, 84] (NatUpperMap.node
  NatUpperMap.leaf 64275 [1348, 1350] NatUpperMap.leaf)) 64276 [1348, 1333] (NatUpperMap.node
  NatUpperMap.leaf 64277 [1348, 1339] (NatUpperMap.node NatUpperMap.leaf 64278 [1358, 1350]
  NatUpperMap.leaf))))))) 64279 [1348, 1341] (NatUpperMap.node (NatUpperMap.node
  (NatUpperMap.node (NatUpperMap.node (NatUpperMap.node (NatUpperMap.node NatUpperMap.leaf
  65345 [65313] (NatUpperMap.node NatUpperMap.leaf 65346 [65314] NatUpperMap.leaf)) 65347
  [65315] (NatUpperMap.node NatUpperMap.leaf 65348 [65316] (NatUpperMap.node NatUpperMap.leaf
  65349 [65317] NatUpperMap.leaf))) 65350 [65318] (NatUpperMap.node (NatUpperMap.node
  NatUpperMap.leaf 65351 [65319] (NatUpperMap.node NatUpperMap.leaf 65352 [65320]
  NatUpperMap.leaf)) 65353 [65321] (NatUpperMap.node NatUpperMap.leaf 65354 [65322]
  (NatUpperMap.node NatUpperMap.leaf 65355 [65323] NatUpperMap.leaf)))) 65356 [65324]
  (NatUpperMap.node (NatUpperMap.node (NatUpperMap.node NatUpperMap.leaf 65357 [65325]
  (NatUpperMap.node NatUpperMap.leaf 65358 [65326] NatUpperMap.leaf)) 65359 [65327]
  (NatUpperMap.node NatUpperMap.leaf 65360 [65328] (NatUpperMap.node NatUpperMap.leaf 65361
  [65329] NatUpperMap.leaf))) 65362 [65330] (NatUpperMap.node (NatUpperMap.node
  NatUpperMap.leaf 65363 [65331] (NatUpperMap.node NatUpperMap.leaf 65364 [65332]
  NatUpperMap.leaf)) 65365 [65333] (NatUpperMap.node NatUpperMap.leaf 65366 [65334]
  (NatUpperMap.node NatUpperMap.leaf 65367 [65335] NatUpperMap.leaf))))) 65368 [65336]
  (NatUpperMap.node (NatUpperMap.node (NatUpperMap.node (NatUpperMap.node NatUpperMap.leaf
  65369 [65337] (NatUpperMap.node NatUpperMap.leaf 65370 [65338] NatUpperMap.leaf)) 66600
  [66560] (NatUpperMap.node NatUpperMap.leaf 66601 [66561] (NatUpperMap.node NatUpperMap.leaf
  66602 [66562] NatUpperMap.leaf))) 66603 [66563] (NatUpperMap.node (NatUpperMap.node
  NatUpperMap.leaf 66604 [66564] (NatUpperMap.node NatUpperMap.leaf 66605 [66565]
  NatUpperMap.leaf)) 66606 [66566] (NatUpperMap.node NatUpperMap.leaf 66607 [66567]
  (NatUpperMap.node NatUpperMap.leaf 66608 [66568] NatUpperMap.leaf)))) 66609 [66569]
  (NatUpperMap.node (NatUpperMap.node (NatUpperMap.node NatUpperMap.leaf 66610 [66570]
  (NatUpperMap.node NatUpperMap.leaf 66611 [66571] NatUpperMap.leaf)) 66612 [66572]
  (NatUpperMap.node NatUpperMap.leaf 66613 [66573] (NatUpperMap.node NatUpperMap.leaf 66614
  [66574] NatUpperMap.leaf))) 66615 [66575] (NatUpperMap.node (NatUpperMap.node
  NatUpperMap.leaf 66616 [66576] (NatUpperMap.node NatUpperMap.leaf 66617 [66577]
  NatUpperMap.leaf)) 66618 [66578] (NatUpperMap.node NatUpperMap.leaf 66619 [66579]
  (NatUpperMap.node NatUpperMap.leaf 66620 [66580] NatUpperMap.leaf)))))) 66621 [66581]
  (NatUpperMap.node (NatUpperMap.node (NatUpperMap.node (NatUpperMap.node (NatUpperMap.node
  NatUpperMap.leaf 66622 [66582] (NatUpperMap.node NatUpperMap.leaf 66623 [66583]
  NatUpperMap.leaf)) 66624 [66584] (NatUpperMap.node NatUpperMap.leaf 66625 [66585]
  (NatUpperMap.node NatUpperMap.leaf 66626 [66586] NatUpperMap.leaf))) 66627 [66587]
  (NatUpperMap.node (NatUpperMap.node NatUpperMap.leaf 66628 [66588] (NatUpperMap.node
  NatUpperMap.leaf 66629 [66589] NatUpperMap.leaf)) 66630 [66590] (NatUpperMap.node
  NatUpperMap.leaf 66631 [66591] (NatUpperMap.node NatUpperMap.leaf 66632 [66592]
  NatUpperMap.leaf)))) 66633 [66593] (NatUpperMap.node (NatUpperMap.node (NatUpperMap.node
  NatUpperMap.leaf 66634 [66594] (NatUpperMap.node NatUpperMap.leaf 66635 [66595]
  NatUpperMap.leaf)) 66636 [66596] (NatUpperMap.node NatUpperMap.leaf 66637 [66597]
  (NatUpperMap.node NatUpperMap.leaf 66638 [66598] NatUpperMap.leaf))) 66639 [66599]
  (NatUpperMap.node (NatUpperMap.node NatUpperMap.leaf 66776 [66736] (NatUpperMap.node
  NatUpperMap.leaf 66777 [66737] NatUpperMap.leaf)) 66778 [66738] (NatUpperMap.node
  NatUpperMap.leaf 66779 [66739] (NatUpperMap.node NatUpperMap.leaf 66780 [66740]
  NatUpperMap.leaf))))) 66781 [66741] (NatUpperMap.node (NatUpperMap.node (NatUpperMap.node
  (NatUpperMap.node NatUpperMap.leaf 66782 [66742] (NatUpperMap.node NatUpperMap.leaf 66783
  [66743] NatUpperMap.leaf)) 66784 [66744] (NatUpperMap.node NatUpperMap.leaf 66785 [66745]
  (NatUpperMap.node NatUpperMap.leaf 66786 [66746] NatUpperMap.leaf))) 66787 [66747]
  (NatUpperMap.node (NatUpperMap.node NatUpperMap.leaf 66788 [66748] (NatUpperMap.node
  NatUpperMap.leaf 66789 [66749] NatUpperMap.leaf)) 66790 [66750] (NatUpperMap.node
  NatUpperMap.leaf 66791 [66751] (NatUpperMap.node NatUpperMap.leaf 66792 [66752]
  NatUpperMap.leaf)))) 66793 [66753] (NatUpperMap.node (NatUpperMap.node (NatUpperMap.node
  NatUpperMap.leaf 66794 [66754] (NatUpperMap.node NatUpperMap.leaf 66795 [66755]
  NatUpperMap.leaf)) 66796 [66756] (NatUpperMap.node NatUpperMap.leaf 66797 [66757]
  (NatUpperMap.node NatUpperMap.leaf 66798 [66758] NatUpperMap.leaf))) 66799 [66759]
  (NatUpperMap.node (NatUpperMap.node NatUpperMap.leaf 66800 [66760] (NatUpperMap.node
  NatUpperMap.leaf 66801 [66761] NatUpperMap.leaf)) 66802 [66762] (NatUpperMap.node
  NatUpperMap.leaf 66803 [66763] (NatUpperMap.node NatUpperMap.leaf 66804 [66764]
  NatUpperMap.leaf)))))))) 66805 [66765] (NatUpperMap.node (NatUpperMap.node (NatUpperMap.node
  (NatUpperMap.node (NatUpperMap.node (NatUpperMap.node (NatUpperMap.node NatUpperMap.leaf
  66806 [66766] NatUpperMap.leaf) 66807 [66767] (NatUpperMap.node NatUpperMap.leaf 66808
  [66768] (NatUpperMap.node NatUpperMap.leaf 66809 [66769] NatUpperMap.leaf))) 66810 [66770]
  (NatUpperMap.node (NatUpperMap.node NatUpperMap.leaf 66811 [66771] (NatUpperMap.node
  NatUpperMap.leaf 66967 [66928] NatUpperMap.leaf)) 66968 [66929] (NatUpperMap.node
  NatUpperMap.leaf 66969 [66930] (NatUpperMap.node NatUpperMap.leaf 66970 [66931]
  NatUpperMap.leaf)))) 66971 [66932] (NatUpperMap.node (NatUpperMap.node (NatUpperMap.node
  NatUpperMap.leaf 66972 [66933] (NatUpperMap.node NatUpperMap.leaf 66973 [66934]
  NatUpperMap.leaf)) 66974 [66935] (NatUpperMap.node NatUpperMap.leaf 66975 [66936]
  (NatUpperMap.node NatUpperMap.leaf 66976 [66937] NatUpperMap.leaf))) 66977 [66938]
  (NatUpperMap.node (NatUpperMap.node NatUpperMap.leaf 66979 [66940] (NatUpperMap.node
  NatUpperMap.leaf 66980 [66941] NatUpperMap.leaf)) 66981 [66942] (NatUpperMap.node
  NatUpperMap.leaf 66982 [66943] (NatUpperMap.node NatUpperMap.leaf 66983 [66944]
  NatUpperMap.leaf))))) 66984 [66945] (NatUpperMap.node (NatUpperMap.node (NatUpperMap.node
  (NatUpperMap.node NatUpperMap.leaf 66985 [66946] (NatUpperMap.node NatUpperMap.leaf 66986
  [66947] NatUpperMap.leaf)) 66987 [66948] (NatUpperMap.node NatUpperMap.leaf 66988 [66949]
  (NatUpperMap.node NatUpperMap.leaf 66989 [66950] NatUpperMap.leaf))) 66990 [66951]
  (NatUpperMap.node (NatUpperMap.node NatUpperMap.leaf 66991 [66952] (NatUpperMap.node
  NatUpperMap.leaf 66992 [66953] NatUpperMap.leaf)) 66993 [66954] (NatUpperMap.node
  NatUpperMap.leaf 66995 [66956] (NatUpperMap.node NatUpperMap.leaf 66996 [66957]
  NatUpperMap.leaf)))) 66997 [66958] (NatUpperMap.node (NatUpperMap.node (NatUpperMap.node
  NatUpperMap.leaf 66998 [66959] (NatUpperMap.node NatUpperMap.leaf 66999 [66960]
  NatUpperMap.leaf)) 67000 [66961] (NatUpperMap.node NatUpperMap.leaf 67001 [66962]
  (NatUpperMap.node NatUpperMap.leaf 67003 [66964] NatUpperMap.leaf))) 67004 [66965]
  (NatUpperMap.node (NatUpperMap.node NatUpperMap.leaf 68800 [68736] (NatUpperMap.node
  NatUpperMap.leaf 68801 [68737] NatUpperMap.leaf)) 68802 [68738] (NatUpperMap.node
  NatUpperMap.leaf 68803 [68739] (NatUpperMap.node NatUpperMap.leaf 68804 [68740]
  NatUpperMap.leaf)))))) 68805 [68741] (NatUpperMap.node (NatUpperMap.node (NatUpperMap.node
  (NatUpperMap.node (NatUpperMap.node NatUpperMap.leaf 68806 [68742] (NatUpperMap.node
  NatUpperMap.leaf 68807 [68743] NatUpperMap.leaf)) 68808 [68744] (NatUpperMap.node
  NatUpperMap.leaf 68809 [68745] (NatUpperMap.node NatUpperMap.leaf 68810 [68746]
  NatUpperMap.leaf))) 68811 [68747] (NatUpperMap.node (NatUpperMap.node NatUpperMap.leaf 68812
  [68748] (NatUpperMap.node NatUpperMap.leaf 68813 [68749] NatUpperMap.leaf)) 68814 [68750]
  (NatUpperMap.node NatUpperMap.leaf 68815 [68751] (NatUpperMap.node NatUpperMap.leaf 68816
  [68752] NatUpperMap.leaf)))) 68817 [68753] (NatUpperMap.node (NatUpperMap.node
  (NatUpperMap.node NatUpperMap.leaf 68818 [68754] (NatUpperMap.node NatUpperMap.leaf 68819
  [68755] NatUpperMap.leaf)) 68820 [68756] (NatUpperMap.node NatUpperMap.leaf 68821 [68757]
  (NatUpperMap.node NatUpperMap.leaf 68822 [68758] NatUpperMap.leaf))) 68823 [68759]
  (NatUpperMap.node (NatUpperMap.node NatUpperMap.leaf 68824 [68760] (NatUpperMap.node
  NatUpperMap.leaf 68825 [68761] NatUpperMap.leaf)) 68826 [68762] (NatUpperMap.node
  NatUpperMap.leaf 68827 [68763] (NatUpperMap.node NatUpperMap.leaf 68828 [68764]
  NatUpperMap.leaf))))) 68829 [68765] (NatUpperMap.node (NatUpperMap.node (NatUpperMap.node
  (NatUpperMap.node NatUpperMap.leaf 68830 [68766] (NatUpperMap.node NatUpperMap.leaf 68831
  [68767] NatUpperMap.leaf)) 68832 [68768] (NatUpperMap.node NatUpperMap.leaf 68833 [68769]
  (NatUpperMap.node NatUpperMap.leaf 68834 [68770] NatUpperMap.leaf))) 68835 [68771]
  (NatUpperMap.node (NatUpperMap.node NatUpperMap.leaf 68836 [68772] (NatUpperMap.node
  NatUpperMap.leaf 68837 [68773] NatUpperMap.leaf)) 68838 [68774] (NatUpperMap.node
  NatUpperMap.leaf 68839 [68775] (NatUpperMap.node NatUpperMap.leaf 68840 [68776]
  NatUpperMap.leaf)))) 68841 [68777] (NatUpperMap.node (NatUpperMap.node (NatUpperMap.node
  NatUpperMap.leaf 68842 [68778] (NatUpperMap.node NatUpperMap.leaf 68843 [68779]
  NatUpperMap.leaf)) 68844 [68780] (NatUpperMap.node NatUpperMap.leaf 68845 [68781]
  (NatUpperMap.node NatUpperMap.leaf 68846 [68782] NatUpperMap.leaf))) 68847 [68783]
  (NatUpperMap.node (NatUpperMap.node NatUpperMap.leaf 68848 [68784] (NatUpperMap.node
  NatUpperMap.leaf 68849 [68785] NatUpperMap.leaf)) 68850 [68786] (NatUpperMap.node
  NatUpperMap.leaf 71872 [71840] (NatUpperMap.node NatUpperMap.leaf 71873 [71841]
  NatUpperMap.leaf))))))) 71874 [71842] (NatUpperMap.node (NatUpperMap.node (NatUpperMap.node
  (NatUpperMap.node (NatUpperMap.node (NatUpperMap.node NatUpperMap.leaf 71875 [71843]
  (NatUpperMap.node NatUpperMap.leaf 71876 [71844] NatUpperMap.leaf)) 71877 [71845]
  (NatUpperMap.node NatUpperMap.leaf 71878 [71846] (NatUpperMap.node NatUpperMap.leaf 71879
  [71847] NatUpperMap.leaf))) 71880 [71848] (NatUpperMap.node (NatUpperMap.node
  NatUpperMap.leaf 71881 [71849] (NatUpperMap.node NatUpperMap.leaf 71882 [71850]
  NatUpperMap.leaf)) 71883 [71851] (NatUpperMap.node NatUpperMap.leaf 71884 [71852]
  (NatUpperMap.node NatUpperMap.leaf 71885 [71853] NatUpperMap.leaf)))) 71886 [71854]
  (NatUpperMap.node (NatUpperMap.node (NatUpperMap.node NatUpperMap.leaf 71887 [71855]
  (NatUpperMap.node NatUpperMap.leaf 71888 [71856] NatUpperMap.leaf)) 71889 [71857]
  (NatUpperMap.node NatUpperMap.leaf 71890 [71858] (NatUpperMap.node NatUpperMap.leaf 71891
  [71859] NatUpperMap.leaf))) 71892 [71860] (NatUpperMap.node (NatUpperMap.node
  NatUpperMap.leaf 71893 [71861] (NatUpperMap.node NatUpperMap.leaf 71894 [71862]
  NatUpperMap.leaf)) 71895 [71863] (NatUpperMap.node NatUpperMap.leaf 71896 [71864]
  (NatUpperMap.node NatUpperMap.leaf 71897 [71865] NatUpperMap.leaf))))) 71898 [71866]
  (NatUpperMap.node (NatUpperMap.node (NatUpperMap.node (NatUpperMap.node NatUpperMap.leaf
  71899 [71867] (NatUpperMap.node NatUpperMap.leaf 71900 [71868] NatUpperMap.leaf)) 71901
  [71869] (NatUpperMap.node NatUpperMap.leaf 71902 [71870] (NatUpperMap.node NatUpperMap.leaf
  71903 [71871] NatUpperMap.leaf))) 93792 [93760] (NatUpperMap.node (NatUpperMap.node
  NatUpperMap.leaf 93793 [93761] (NatUpperMap.node NatUpperMap.leaf 93794 [93762]
  NatUpperMap.leaf)) 93795 [93763] (NatUpperMap.node NatUpperMap.leaf 93796 [93764]
  (NatUpperMap.node NatUpperMap.leaf 93797 [93765] NatUpperMap.leaf)))) 93798 [93766]
  (NatUpperMap.node (NatUpperMap.node (NatUpperMap.node NatUpperMap.leaf 93799 [93767]
  (NatUpperMap.node NatUpperMap.leaf 93800 [93768] NatUpperMap.leaf)) 93801 [93769]
  (NatUpperMap.node NatUpperMap.leaf 93802 [93770] (NatUpperMap.node NatUpperMap.leaf 93803
  [93771] NatUpperMap.leaf))) 93804 [93772] (NatUpperMap.node (NatUpperMap.node
  NatUpperMap.leaf 93805 [93773] (NatUpperMap.node NatUpperMap.leaf 93806 [93774]
  NatUpperMap.leaf)) 93807 [93775] (NatUpperMap.node NatUpperMap.leaf 93808 [93776]
  (NatUpperMap.node NatUpperMap.leaf 93809 [93777] NatUpperMap.leaf)))))) 93810 [93778]
  (NatUpperMap.node (NatUpperMap.node (NatUpperMap.node (NatUpperMap.node (NatUpperMap.node
  NatUpperMap.leaf 93811 [93779] (NatUpperMap.node NatUpperMap.leaf 93812 [93780]
  NatUpperMap.leaf)) 93813 [93781] (NatUpperMap.node NatUpperMap.leaf 93814 [93782]
  (NatUpperMap.node NatUpperMap.leaf 93815 [93783] NatUpperMap.leaf))) 93816 [93784]
  (NatUpperMap.node (NatUpperMap.node NatUpperMap.leaf 93817 [93785] (NatUpperMap.node
  NatUpperMap.leaf 93818 [93786] NatUpperMap.leaf)) 93819 [93787] (NatUpperMap.node
  NatUpperMap.leaf 93820 [93788] (NatUpperMap.node NatUpperMap.leaf 93821 [93789]
  NatUpperMap.leaf)))) 93822 [93790] (NatUpperMap.node (NatUpperMap.node (NatUpperMap.node
  NatUpperMap.leaf 93823 [93791] (NatUpperMap.node NatUpperMap.leaf 125218 [125184]
  NatUpperMap.leaf)) 125219 [125185] (NatUpperMap.node NatUpperMap.leaf 125220 [125186]
  (NatUpperMap.node NatUpperMap.leaf 125221 [125187] NatUpperMap.leaf))) 125222 [125188]
  (NatUpperMap.node (NatUpperMap.node NatUpperMap.leaf 125223 [125189] (NatUpperMap.node
  NatUpperMap.leaf 125224 [125190] NatUpperMap.leaf)) 125225 [125191] (NatUpperMap.node
  NatUpperMap.leaf 125226 [125192] (NatUpperMap.node NatUpperMap.leaf 125227 [125193]
  NatUpperMap.leaf))))) 125228 [125194] (NatUpperMap.node (NatUpperMap.node (NatUpperMap.node
  (NatUpperMap.node NatUpperMap.leaf 125229 [125195] (NatUpperMap.node NatUpperMap.leaf 125230
  [125196] NatUpperMap.leaf)) 125231 [125197] (NatUpperMap.node NatUpperMap.leaf 125232
  [125198] (NatUpperMap.node NatUpperMap.leaf 125233 [125199] NatUpperMap.leaf))) 125234
  [125200] (NatUpperMap.node (NatUpperMap.node NatUpperMap.leaf 125235 [125201]
  (NatUpperMap.node NatUpperMap.leaf 125236 [125202] NatUpperMap.leaf)) 125237 [125203]
  (NatUpperMap.node NatUpperMap.leaf 125238 [125204] (NatUpperMap.node NatUpperMap.leaf 125239
  [125205] NatUpperMap.leaf)))) 125240 [125206] (NatUpperMap.node (NatUpperMap.node
  (NatUpperMap.node NatUpperMap.leaf 125241 [125207] (NatUpperMap.node NatUpperMap.leaf 125242
  [125208] NatUpperMap.leaf)) 125243 [125209] (NatUpperMap.node NatUpperMap.leaf 125244
  [125210] (NatUpperMap.node NatUpperMap.leaf 125245 [125211] NatUpperMap.leaf))) 125246
  [125212] (NatUpperMap.node (NatUpperMap.node NatUpperMap.leaf 125247 [125213]
  (NatUpperMap.node NatUpperMap.leaf 125248 [125214] NatUpperMap.leaf)) 125249 [125215]
  (NatUpperMap.node NatUpperMap.leaf 125250 [125216] (NatUpperMap.node NatUpperMap.leaf 125251
  [125217] NatUpperMap.leaf)))))))))))
/-- Python `str.upper` of a single code point: the table image when the
code point is in the table, otherwise the code point itself. -/
def pyUpperCp (n : Nat) : List Nat :=
  match upperTable.lookup n with
  | some l => l
  | none => [n]

/-- Python `str.upper` applied to one character. -/
def pyUpperChar (c : Char) : List Char := (pyUpperCp c.toNat).map Char.ofNat

/-- Python `text.upper()` over a whole string. -/
def pyUpper (s : PyStr) : PyStr := (s.map pyUpperChar).flatten

/-- Wire values: the JSON-like values exchanged with tools. -/
inductive Value where
  | str : PyStr → Value
  | num : Int → Value
  | bool : Bool → Value
  | obj : List (String × Value) → Value

/-- Source tool `echo(message)`: returns the message unchanged. -/
def echo (message : PyStr) : PyStr := message

/-- Source tool `reverse(text)`: Python `text[::-1]`. -/
def reverse (text : PyStr) : PyStr := text.reverse

/-- Source tool `uppercase(text)`: Python `text.upper()`. -/
def uppercase (text : PyStr) : PyStr := pyUpper text

/-- Source tool `count_words(text)`: word and character counts, returned
as a dict with the three keys of the source. -/
def count_words (text : PyStr) : List (String × Value) :=
  [("word_count", Value.num (pySplit text).length),
   ("character_count", Value.num text.length),
   ("character_count_no_spaces", Value.num (pyReplaceSpace text).length)]

/-- Modelled from the spec: declared argument type tags (spec section 4.2);
the framework code holding the real validator is not under src. -/
inductive TypeTag where
  | string
  | number
  | boolean
  | object
deriving DecidableEq

/-- Modelled from the spec: a declared tool parameter, name, declared type
tag and required flag (spec section 3). -/
structure Param where
  name : String
  type : TypeTag
  required : Bool
deriving DecidableEq

/-- Runtime type tag of a wire value. -/
def typeOf : Value → TypeTag
  | .str _ => .string
  | .num _ => .number
  | .bool _ => .boolean
  | .obj _ => .object

/-- Modelled from the spec: a registered tool (spec section 3): unique
name, ordered parameter list, return type tag and handler; the handler may
report a failure message, surfaced as TOOL_EXECUTION_ERROR. -/
structure Tool where
  name : String
  params : List Param
  ret : TypeTag
  handler : List (String × Value) → Except String Value

/-- Modelled from the spec: registration failures (spec sections 4.1, 7). -/
inductive RegistryError where
  | duplicateTool
  | registryClosed
deriving DecidableEq

/-- Modelled from the spec: lookup failure (spec section 4.1). -/
inductive LookupError where
  | unknownTool
deriving DecidableEq

/-- Modelled from the spec: the tool registry, a name-keyed collection of
tools with unique names (spec section 3). -/
abbrev Registry := List Tool

/-- Modelled from the spec: register fails with DuplicateToolError when a
tool of that name already exists (spec section 4.1). -/
def register (r : Registry) (t : Tool) : Except RegistryError Registry :=
  if (r.find? (fun u => u.name == t.name)).isSome then .error .duplicateTool
  else .ok (r ++ [t])

/-- Modelled from the spec: lookup returns the tool of that name or fails
with UnknownToolError (spec section 4.1). -/
def lookup (r : Registry) (n : String) : Except LookupError Tool :=
  match r.find? (fun t => t.name == n) with
  | some t => .ok t
  | none => .error .unknownTool

/-- Modelled from the spec: a server is a registry plus the open/closed
serving flag; registration is refused once serving has begun (spec
section 4.1). -/
structure Server where
  registry : Registry
  serving : Bool

/-- Modelled from the spec: registration through the server, enforcing the
open/closed flag (spec section 4.1). -/
def registerTool (s : Server) (t : Tool) : Except RegistryError Server :=
  if s.serving then .error .registryClosed
  else (register s.registry t).map (fun r => { s with registry := r })

/-- Modelled from the spec: the transition to the serving state, after
which registration is refused. -/
def startServing (s : Server) : Server := { s with serving := true }

/-- Modelled from the spec: the structured validation failure carrying the
missing and type-mismatched parameter names (spec section 4.2). -/
structure ValidationError where
  missing : List String
  typeMismatch : List String
deriving DecidableEq

/-- Names of declared parameters that are required but absent from the
supplied arguments (spec section 4.2). -/
def missingOf (t : Tool) (args : List (String × Value)) : List String :=
  (t.params.filter (fun p => p.required && (args.lookup p.name).isNone)).map
    Param.name

/-- Names of declared parameters whose supplied value has the wrong type
tag (spec section 4.2). -/
def mismatchOf (t : Tool) (args : List (String × Value)) : List String :=
  t.params.filterMap (fun p =>
    match args.lookup p.name with
    | some v => if typeOf v == p.type then none else some p.name
    | none => none)

/-- The normalized argument mapping: the declared parameters that were
supplied, in declaration order; extra supplied arguments are dropped. -/
def normalizedOf (t : Tool) (args : List (String × Value)) :
    List (String × Value) :=
  t.params.filterMap (fun p => (args.lookup p.name).map (fun v => (p.name, v)))

/-- Modelled from the spec: validate returns the normalized mapping or
fails with the structured ValidationError; extra supplied arguments are
ignored (spec section 4.2). -/
def validate (t : Tool) (args : List (String × Value)) :
    Except ValidationError (List (String × Value)) :=
  if (missingOf t args).isEmpty && (mismatchOf t args).isEmpty then
    .ok (normalizedOf t args)
  else .error ⟨missingOf t args, mismatchOf t args⟩

/-- Modelled from the spec: dispatcher error codes (spec sections 4.3, 7).
TOOL_TIMEOUT is produced only through the external timeout collaborator,
which is outside this synchronous model. -/
inductive ErrorCode where
  | TOOL_NOT_FOUND
  | INVALID_ARGUMENTS
  | TOOL_TIMEOUT
  | TOOL_EXECUTION_ERROR
deriving DecidableEq

/-- Modelled from the spec: the error descriptor of an error response:
code, message and optional structured validation detail (spec sections
6, 7). -/
structure ErrorInfo where
  code : ErrorCode
  message : String
  detail : Option ValidationError

/-- Modelled from the spec: a call request: caller-supplied id, tool name
and argument mapping (spec section 3). -/
structure CallRequest where
  id : Nat
  name : String
  arguments : List (String × Value)

/-- Modelled from the spec: a call response: the request id and either a
result value or an error descriptor (spec section 3). -/
structure CallResponse where
  id : Nat
  result : Option Value
  error : Option ErrorInfo

/-- Modelled from the spec: the dispatcher (spec section 4.3): lookup,
validation, synchronous handler invocation, and packaging of the result or
error into the response envelope; the request id is always preserved.
Timeouts are enforced by an external collaborator, outside this model. -/
def handle (r : Registry) (req : CallRequest) : CallResponse :=
  match lookup r req.name with
  | .error .unknownTool =>
    ⟨req.id, none, some ⟨.TOOL_NOT_FOUND, "tool not found", none⟩⟩
  | .ok t =>
    match validate t req.arguments with
    | .error e =>
      ⟨req.id, none, some ⟨.INVALID_ARGUMENTS, "invalid arguments", some e⟩⟩
    | .ok args =>
      match t.handler args with
      | .error msg => ⟨req.id, none, some ⟨.TOOL_EXECUTION_ERROR, msg, none⟩⟩
      | .ok v => ⟨req.id, some v, none⟩

/-- The echo tool as the example server registers it: one required string
parameter named message, handled by the source function `echo`. -/
def echoTool : Tool where
  name := "echo"
  params := [⟨"message", .string, true⟩]
  ret := .string
  handler := fun args =>
    match args.lookup "message" with
    | some (.str m) => .ok (.str (echo m))
    | _ => .error "echo: invalid arguments"

/-- The reverse tool as the example server registers it. -/
def reverseTool : Tool where
  name := "reverse"
  params := [⟨"text", .string, true⟩]
  ret := .string
  handler := fun args =>
    match args.lookup "text" with
    | some (.str t) => .ok (.str (reverse t))
    | _ => .error "reverse: invalid arguments"

/-- The uppercase tool as the example server registers it. -/
def uppercaseTool : Tool where
  name := "uppercase"
  params := [⟨"text", .string, true⟩]
  ret := .string
  handler := fun args =>
    match args.lookup "text" with
    | some (.str t) => .ok (.str (uppercase t))
    | _ => .error "uppercase: invalid arguments"

/-- The word-count tool as the example server registers it; its result is
the dict built by the source function `count_words`. -/
def countWordsTool : Tool where
  name := "count_words"
  params := [⟨"text", .string, true⟩]
  ret := .object
  handler := fun args =>
    match args.lookup "text" with
    | some (.str t) => .ok (.obj (count_words t))
    | _ => .error "count_words: invalid arguments"

/-- The registration sequence the example server performs at module load,
before serving starts: the four tools, in source order, on a fresh
not-yet-serving server. -/
def demoServer : Except RegistryError Server :=
  (registerTool ⟨[], false⟩ echoTool).bind fun s =>
  (registerTool s reverseTool).bind fun s =>
  (registerTool s uppercaseTool).bind fun s =>
  registerTool s countWordsTool

/-- The registry the example server serves with. -/
def demoRegistry : Registry :=
  match demoServer with
  | .ok s => s.registry
  | .error _ => []

/-- A second tool named echo, used to exercise duplicate registration. -/
def echoClone : Tool where
  name := "echo"
  params := []
  ret := .string
  handler := fun _ => .error "clone"

/-- C1: for every string message m, invoking the echo tool through the
dispatcher with argument message = m returns m unchanged as the result,
for any request id; in particular the call with id 1 and message "hi"
yields the response with id 1, result "hi" and no error. -/
theorem echo_returns_message_unchanged :
    (∀ (i : Nat) (m : PyStr),
      handle demoRegistry ⟨i, "echo", [("message", Value.str m)]⟩
        = ⟨i, some (Value.str m), none⟩)
    ∧ handle demoRegistry ⟨1, "echo", [("message", Value.str ['h', 'i'])]⟩
        = ⟨1, some (Value.str ['h', 'i']), none⟩ :=
  ⟨fun _ _ => rfl, rfl⟩

/-- C2: the word-count tool applied to the text "a b c" yields word_count
3, character_count 5 and character_count_no_spaces 3, both as a direct
call of the source function and through the dispatcher. -/
theorem count_words_scenario :
    count_words ['a', ' ', 'b', ' ', 'c']
      = [("word_count", Value.num 3), ("character_count", Value.num 5),
         ("character_count_no_spaces", Value.num 3)]
    ∧ handle demoRegistry
        ⟨3, "count_words", [("text", Value.str ['a', ' ', 'b', ' ', 'c'])]⟩
      = ⟨3, some (Value.obj
          [("word_count", Value.num 3), ("character_count", Value.num 5),
           ("character_count_no_spaces", Value.num 3)]), none⟩ :=
  ⟨rfl, rfl⟩

/-- C3: starting from a fresh not-yet-serving server, the example's
registration sequence succeeds and the resulting registry holds exactly
the four tools echo, reverse, uppercase and count_words in source order
and nothing else, with the server still not serving, so every
registration happened before serving begins. -/
theorem four_tools_registered_before_serving :
    demoServer.map (fun s => (s.registry.map Tool.name, s.serving))
      = .ok (["echo", "reverse", "uppercase", "count_words"], false) :=
  rfl

/-- C5: for every registry and every request, the response the dispatcher
produces carries the request's id, whether the call succeeds or fails. -/
theorem response_id_equals_request_id (r : Registry) (req : CallRequest) :
    (handle r req).id = req.id := by
  unfold handle
  repeat' split
  all_goals rfl

/-- C9: the reverse tool is an involution: reversing twice returns the
original text. -/
theorem reverse_involution (t : PyStr) : reverse (reverse t) = t :=
  List.reverse_reverse t


theorem unknown_tool_not_found (r : Registry) (req : CallRequest)
    (h : lookup r req.name = .error .unknownTool) :
    (handle r req).id = req.id ∧ (handle r req).result = none
      ∧ (handle r req).error = some ⟨.TOOL_NOT_FOUND, "tool not found", none⟩ := by
  have hh : handle r req
      = ⟨req.id, none, some ⟨.TOOL_NOT_FOUND, "tool not found", none⟩⟩ := by
    unfold handle
    rw [h]
  rw [hh]
  exact ⟨rfl, rfl, rfl⟩

theorem unknown_tool_not_found_witness :
    lookup demoRegistry "ghost" = .error .unknownTool
    ∧ ((handle demoRegistry ⟨2, "ghost", []⟩).id = 2
       ∧ (handle demoRegistry ⟨2, "ghost", []⟩).result = none
       ∧ (handle demoRegistry ⟨2, "ghost", []⟩).error
           = some ⟨.TOOL_NOT_FOUND, "tool not found", none⟩) :=
  ⟨rfl, unknown_tool_not_found demoRegistry ⟨2, "ghost", []⟩ rfl⟩

theorem duplicate_register_rejected (r : Registry) (n : String) (t t' : Tool)
    (hl : lookup r n = .ok t) (hn : t'.name = n) :
    register r t' = .error .duplicateTool ∧ lookup r n = .ok t := by
  refine ⟨?_, hl⟩
  subst hn
  unfold lookup at hl
  unfold register
  cases hfind : r.find? (fun u => u.name == t'.name) with
  | none => rw [hfind] at hl; cases hl
  | some u => rfl

theorem duplicate_register_rejected_witness :
    lookup [echoTool] "echo" = .ok echoTool ∧ echoClone.name = "echo"
    ∧ (register [echoTool] echoClone = .error .duplicateTool
       ∧ lookup [echoTool] "echo" = .ok echoTool) :=
  ⟨rfl, rfl, duplicate_register_rejected [echoTool] "echo" echoTool echoClone rfl rfl⟩
theorem validate_pure_reports_missing (t : Tool)
    (args : List (String × Value)) :
    validate t args = validate t args
    ∧ ∀ p ∈ t.params, p.required = true → args.lookup p.name = none →
      ∃ e, validate t args = .error e ∧ p.name ∈ e.missing := by
  refine ⟨rfl, ?_⟩
  intro p hp hreq habs
  have hmem : p.name ∈ missingOf t args := by
    refine List.mem_map.2 ⟨p, ?_, rfl⟩
    refine List.mem_filter.2 ⟨hp, ?_⟩
    rw [hreq, habs]
    rfl
  have hne : (missingOf t args).isEmpty = false := by
    cases hM : missingOf t args with
    | nil => rw [hM] at hmem; cases hmem
    | cons a l => rfl
  refine ⟨⟨missingOf t args, mismatchOf t args⟩, ?_, hmem⟩
  unfold validate
  rw [hne]
  rfl

theorem validate_pure_reports_missing_witness :
    (⟨"message", TypeTag.string, true⟩ : Param) ∈ echoTool.params
    ∧ (⟨"message", TypeTag.string, true⟩ : Param).required = true
    ∧ ([] : List (String × Value)).lookup "message" = none
    ∧ ∃ e, validate echoTool [] = .error e ∧ "message" ∈ e.missing :=
  ⟨by decide, rfl, rfl,
    (validate_pure_reports_missing echoTool []).2
      ⟨"message", TypeTag.string, true⟩ (by decide) rfl rfl⟩
lemma pyReplaceSpace_length (l : PyStr) :
    (pyReplaceSpace l).length + l.count ' ' = l.length := by
  unfold pyReplaceSpace
  induction l with
  | nil => rfl
  | cons c cs ih =>
    by_cases hc : c = ' '
    · subst hc
      simp only [List.filter_cons, bne_self_eq_false, Bool.false_eq_true,
        if_false, List.count_cons_self, List.length_cons]
      omega
    · have hb : (c != ' ') = true := bne_iff_ne.2 hc
      simp only [List.filter_cons, hb, if_true, List.length_cons,
        List.count_cons_of_ne (fun h => hc h.symm)]
      omega

lemma pyReplaceSpace_count (a : Char) (ha : a ≠ ' ') (l : PyStr) :
    (pyReplaceSpace l).count a = l.count a :=
  List.count_filter (bne_iff_ne.2 ha)

theorem count_words_space_accounting (text : PyStr) :
    (count_words text).lookup "character_count_no_spaces"
      = some (Value.num ((text.length : Int) - (text.count ' ' : Int)))
    ∧ (pyReplaceSpace text).length ≤ text.length
    ∧ (pyReplaceSpace text).count '\t' = text.count '\t'
    ∧ (pyReplaceSpace text).count '\n' = text.count '\n'
    ∧ pyIsSpace '\t' = true ∧ pyIsSpace '\n' = true := by
  have hk := pyReplaceSpace_length text
  refine ⟨?_, by omega,
    pyReplaceSpace_count '\t' (by decide) text,
    pyReplaceSpace_count '\n' (by decide) text, by decide, by decide⟩
  show some (Value.num ((pyReplaceSpace text).length : Int)) = _
  have h2 : ((pyReplaceSpace text).length : Int)
      = (text.length : Int) - (text.count ' ' : Int) := by omega
  rw [h2]
lemma lookup_append_nat (l₁ l₂ : List (Nat × List Nat)) (n : Nat) :
    (l₁ ++ l₂).lookup n
      = match l₁.lookup n with
        | some v => some v
        | none => l₂.lookup n := by
  induction l₁ with
  | nil => rfl
  | cons p l ih =>
    rcases p with ⟨k, v⟩
    by_cases h : n = k
    · subst h
      simp [List.lookup]
    · have hb : (n == k) = false := by simpa using h
      simp only [List.cons_append, List.lookup, hb]
      exact ih

lemma lookup_eq_none_nat {l : List (Nat × List Nat)} {n : Nat}
    (h : ∀ p ∈ l, p.1 ≠ n) : l.lookup n = none := by
  induction l with
  | nil => rfl
  | cons p t ih =>
    rcases p with ⟨k, v⟩
    have hk : k ≠ n := h (k, v) (List.mem_cons_self _ _)
    have hb : (n == k) = false := by simpa using (Ne.symm hk)
    simp only [List.lookup, hb]
    exact ih (fun q hq => h q (List.mem_cons_of_mem _ hq))

lemma find_eq_lookup (t : NatUpperMap)
    (hs : (t.toList.map Prod.fst).Pairwise (· < ·)) (n : Nat) :
    t.toList.lookup n = t.find n := by
  induction t with
  | leaf => rfl
  | node l k v r ihl ihr =>
    simp only [NatUpperMap.toList, List.map_append, List.map_cons] at hs
    rw [List.pairwise_append] at hs
    obtain ⟨hl, hkr, hcross⟩ := hs
    rw [List.pairwise_cons] at hkr
    obtain ⟨hkR, hr⟩ := hkr
    show (l.toList ++ (k, v) :: r.toList).lookup n = _
    unfold NatUpperMap.find
    rw [lookup_append_nat]
    by_cases h1 : n < k
    · rw [if_pos h1, ← ihl hl]
      cases hL : l.toList.lookup n with
      | some w => rfl
      | none =>
        have hb : (n == k) = false := by
          have hnk : n ≠ k := by omega
          simpa using hnk
        simp only [List.lookup, hb]
        refine lookup_eq_none_nat (fun p hp => ?_)
        have := hkR p.1 (List.mem_map_of_mem Prod.fst hp)
        omega
    · have hLnone : l.toList.lookup n = none := by
        refine lookup_eq_none_nat (fun p hp => ?_)
        have := hcross p.1 (List.mem_map_of_mem Prod.fst hp) k
          (List.mem_cons_self _ _)
        omega
      rw [hLnone]
      by_cases h2 : k < n
      · rw [if_neg h1, if_pos h2, ← ihr hr]
        have hb : (n == k) = false := by
          have hnk : n ≠ k := by omega
          simpa using hnk
        simp only [List.lookup, hb]
      · have hnk : n = k := by omega
        subst hnk
        rw [if_neg h1, if_neg h2]
        simp [List.lookup]

lemma sortedKeys_sound (l : List Nat) (h : sortedKeys l = true) :
    l.Chain' (· < ·) := by
  induction l with
  | nil => exact List.chain'_nil
  | cons a t ih =>
    cases t with
    | nil => exact List.chain'_singleton a
    | cons b t' =>
      unfold sortedKeys at h
      rw [Bool.and_eq_true] at h
      exact List.chain'_cons.2 ⟨of_decide_eq_true h.1, ih h.2⟩

lemma checkAgainst_sound {full t : NatUpperMap}
    (h : full.checkAgainst t = true) {n : Nat} {l : List Nat}
    (hf : t.find n = some l) {d : Nat} (hd : d ∈ l) :
    validCp d = true ∧ full.find d = none := by
  induction t with
  | leaf => cases hf
  | node tl k v tr ihl ihr =>
    unfold NatUpperMap.checkAgainst at h
    rw [Bool.and_eq_true, Bool.and_eq_true] at h
    obtain ⟨⟨hv, hL⟩, hR⟩ := h
    unfold NatUpperMap.find at hf
    by_cases h1 : n < k
    · rw [if_pos h1] at hf
      exact ihl hL hf
    · by_cases h2 : k < n
      · rw [if_neg h1, if_pos h2] at hf
        exact ihr hR hf
      · rw [if_neg h1, if_neg h2] at hf
        cases hf
        have hall := List.all_eq_true.1 hv d hd
        rw [Bool.and_eq_true] at hall
        exact ⟨hall.1, Option.isNone_iff_eq_none.1 hall.2⟩

set_option maxHeartbeats 2000000 in
set_option maxRecDepth 8192 in
theorem upperTree_toList : upperTree.toList = upperTable := by rfl

set_option maxHeartbeats 2000000 in
set_option maxRecDepth 8192 in
theorem upperTable_sorted : sortedKeys (upperTable.map Prod.fst) = true := by
  rfl

set_option maxHeartbeats 2000000 in
set_option maxRecDepth 8192 in
theorem upperTree_check : upperTree.checkAgainst upperTree = true := by rfl

lemma upperTable_lookup_eq_find (n : Nat) :
    upperTable.lookup n = upperTree.find n := by
  rw [← upperTree_toList]
  refine find_eq_lookup upperTree ?_ n
  rw [upperTree_toList]
  exact List.chain'_iff_pairwise.1
    (sortedKeys_sound (upperTable.map Prod.fst) upperTable_sorted)

lemma char_toNat_ofNat_valid {n : Nat} (h : validCp n = true) :
    (Char.ofNat n).toNat = n := by
  unfold validCp at h
  rw [Bool.or_eq_true, Bool.and_eq_true] at h
  have hv : n.isValidChar := by
    rcases h with h | ⟨h1, h2⟩
    · exact Or.inl (of_decide_eq_true h)
    · have g1 := of_decide_eq_true h1
      have g2 := of_decide_eq_true h2
      exact Or.inr ⟨by omega, g2⟩
  unfold Char.ofNat
  rw [dif_pos hv]
  rfl

lemma pyUpperChar_fixes (c d : Char) (h : d ∈ pyUpperChar c) :
    pyUpperChar d = [d] := by
  unfold pyUpperChar at h
  rcases List.mem_map.1 h with ⟨e, he, rfl⟩
  unfold pyUpperCp at he
  cases hl : upperTable.lookup c.toNat with
  | none =>
    rw [hl] at he
    simp only [List.mem_singleton] at he
    subst he
    rw [Char.ofNat_toNat]
    unfold pyUpperChar pyUpperCp
    rw [hl]
    simp [Char.ofNat_toNat]
  | some l =>
    rw [hl] at he
    have hfind : upperTree.find c.toNat = some l := by
      rw [← upperTable_lookup_eq_find, hl]
    obtain ⟨hval, hnone⟩ := checkAgainst_sound upperTree_check hfind he
    have htn : (Char.ofNat e).toNat = e := char_toNat_ofNat_valid hval
    unfold pyUpperChar pyUpperCp
    rw [htn, upperTable_lookup_eq_find, hnone]
    rfl


lemma flatten_map_fixed (f : Char → List Char) (l : List Char)
    (h : ∀ d ∈ l, f d = [d]) : (l.map f).flatten = l := by
  induction l with
  | nil => rfl
  | cons c cs ih =>
    simp only [List.map_cons, List.flatten_cons,
      h c (List.mem_cons_self c cs),
      ih (fun d hd => h d (List.mem_cons_of_mem c hd))]
    rfl

lemma pyUpper_upperChar (c : Char) : pyUpper (pyUpperChar c) = pyUpperChar c :=
  flatten_map_fixed pyUpperChar (pyUpperChar c) (fun d hd => pyUpperChar_fixes c d hd)

lemma pyUpper_append (a b : PyStr) : pyUpper (a ++ b) = pyUpper a ++ pyUpper b := by
  simp [pyUpper]

lemma pyUpper_idem (t : PyStr) : pyUpper (pyUpper t) = pyUpper t := by
  induction t with
  | nil => rfl
  | cons c cs ih =>
    have h1 : pyUpper (c :: cs) = pyUpperChar c ++ pyUpper cs := rfl
    rw [h1, pyUpper_append, pyUpper_upperChar, ih]

theorem uppercase_idempotent (t : PyStr) :
    uppercase (uppercase t) = uppercase t :=
  pyUpper_idem t

end McpCore
